/-
  Verification of the SEO-audit pipeline (five analyzer modules).

  This file gives a shallow embedding, in Lean 4, of the analyzer code under
  `src/utils`: the retrieval layer with its relay fallback chain, the
  document-model fields read by the rule checks, each module's check catalog,
  the scoring folds, the blog mini-crawl (URL discovery, per-post analysis,
  aggregation) and the CSV exporters.  Browser built-ins (fetch, DOMParser,
  the URL constructor, JSON.parse) are modelled as environments supplied to
  the embedded functions; machine floats (the simulated Core Web Vitals and
  keyword densities) and wall-clock timestamps are outside the embedding and
  are omitted from the result records, which otherwise follow the source
  structures field by field.  Scores are carried as `Int` before the final
  clamp, matching JavaScript number arithmetic on these integer-valued
  programs.
-/
import Mathlib

/-! ## Common enumerations (issue taxonomy shared by the modules) -/

/-- Issue kind: `'error' | 'warning' | 'info' | 'success'`. -/
inductive IssueType where
  | error | warning | info | success
deriving DecidableEq, Repr

/-- Issue priority: `'high' | 'medium' | 'low'`. -/
inductive Priority where
  | high | medium | low
deriving DecidableEq, Repr

/-- Impact / effort scale of the quick-wins module: `'high'|'medium'|'low'`
    reused as `'easy'|'medium'|'hard'` for effort (kept as separate type). -/
inductive Effort where
  | easy | medium | hard
deriving DecidableEq, Repr

/-- Check-record status: `'passed' | 'failed' | 'warning' | 'info'`. -/
inductive CheckStatus where
  | passed | failed | warning | info
deriving DecidableEq, Repr

/-- `allChecks` entry shared by the technical / site modules. -/
structure CheckRecord where
  name : String
  status : CheckStatus
  description : String
  result : String
  impact : String
  recommendation : Option String := none
deriving DecidableEq, Repr

/-! ## Small string / arithmetic helpers -/

/-! All string operations of the embedding are implemented over `List Char`
so that every embedded function evaluates inside the kernel (the built-in
`Substring`-based versions do not reduce definitionally). -/

/-- `pat` is a prefix of the character list. -/
def isPrefixList : List Char → List Char → Bool
  | [], _ => true
  | _ :: _, [] => false
  | p :: ps, c :: cs => p = c && isPrefixList ps cs

/-- Substring search over character lists. -/
def containsSubstrChars (pat : List Char) : List Char → Bool
  | [] => isPrefixList pat []
  | c :: cs => isPrefixList pat (c :: cs) || containsSubstrChars pat cs

/-- JavaScript `String.prototype.includes`:
    `s` contains `pat` as a substring. -/
def containsSubstr (s pat : String) : Bool :=
  containsSubstrChars pat.data s.data

/-- JavaScript `String.jsStartsWith prototype`. -/
def jsStartsWith (s pat : String) : Bool := isPrefixList pat.data s.data

/-- JavaScript `String.prototype.toLowerCase` (ASCII case fold). -/
def jsToLower (s : String) : String := String.mk (s.data.map Char.toLower)

/-- Strip leading and trailing whitespace from a character list. -/
def trimChars (l : List Char) : List Char :=
  ((l.dropWhile Char.isWhitespace).reverse.dropWhile Char.isWhitespace).reverse

/-- JavaScript `jsTrim str()`. -/
def jsTrim (s : String) : String := String.mk (trimChars s.data)

/-- `str.substring(0, n)`. -/
def jsTake (s : String) (n : Nat) : String := String.mk (s.data.take n)

/-- `str.substring(n)`. -/
def jsDrop (s : String) (n : Nat) : String := String.mk (s.data.drop n)

/-- Split at every occurrence of the (non-empty) separator; the fuel is one
    more than the input length, enough for the left-to-right scan. -/
def splitOnCharsAux (sep : List Char) : Nat → List Char → List Char → List (List Char)
  | _, [], acc => [acc.reverse]
  | 0, l, acc => [acc.reverse ++ l]
  | fuel + 1, c :: cs, acc =>
    if isPrefixList sep (c :: cs) then
      acc.reverse :: splitOnCharsAux sep fuel (List.drop sep.length (c :: cs)) []
    else splitOnCharsAux sep fuel cs (c :: acc)

/-- JavaScript `str.split(sep)` / Lean `String.splitOn`. -/
def splitOnStr (s sep : String) : List String :=
  if sep = "" then [s]
  else (splitOnCharsAux sep.data (s.data.length + 1) s.data []).map String.mk

/-- Split at every character satisfying the predicate. -/
def splitPredAux (p : Char → Bool) : List Char → List Char → List (List Char)
  | [], acc => [acc.reverse]
  | c :: cs, acc =>
    if p c then acc.reverse :: splitPredAux p cs []
    else splitPredAux p cs (c :: acc)

/-- Predicate split over a string. -/
def splitPred (p : Char → Bool) (s : String) : List String :=
  (splitPredAux p s.data []).map String.mk

/-- Final score clamp `Math.max(0, Math.min(100, score))`. -/
def clampScore (x : Int) : Int := max 0 (min 100 x)

/-! ## Retrieval layer (`fetchWithProxy` of the seo analyzer)

The JS `fetch` + `AbortController` pair is modelled by a network oracle:
`attempt u t` is the outcome of one `fetchWithTimeout(u, t)` call, giving the
wall-clock milliseconds the attempt consumed and, on success, the `Response`.
`none` stands for a throw (network error or timeout abort).  `Response.json`
is the result of `response.json()` (`none` = JSON parse throw) carrying the
allorigins envelope `{contents, status: {http_code}}`. -/

/-- The allorigins relay envelope `{contents, status?.http_code}`. -/
structure Envelope where
  contents : String
  http_code : Option Nat
deriving DecidableEq, Repr

/-- A fetched HTTP response as the code consumes it. -/
structure Response where
  body : String
  status : Nat
  json : Option Envelope := none
deriving DecidableEq, Repr

/-- Network oracle: duration (ms) and outcome of a single timed fetch. -/
structure Net where
  attempt : String → Nat → Nat × Option Response

/-- The fixed, ordered relay list (`corsProxies`, identical in all modules). -/
def corsProxies : List String :=
  [ "https://api.allorigins.win/get?url="
  , "https://corsproxy.io/?"
  , "https://cors-anywhere.herokuapp.com/"
  , "https://thingproxy.freeboard.io/fetch/" ]

/-- Browser built-in `encodeURIComponent`, modelled as an abstract injection
    (the relay URL embeds the encoded target; no claim depends on the exact
    percent-encoding). -/
def encodeURIComponent (s : String) : String := s

/-- `data.status?.http_code || 200` (JS falsy: absent or `0` gives 200). -/
def envelopeStatus (h : Option Nat) : Nat :=
  match h with
  | none => 200
  | some c => if c = 0 then 200 else c

/-- One relay iteration of `fetchWithProxy`: walk the proxy list, normalise
    each response (allorigins envelope vs raw body), first success wins;
    `elapsed` accumulates the durations of all attempts made so far, so a
    winner's reported time is measured from the original call start. -/
def tryProxies (net : Net) (url : String) (timeout : Nat) :
    List String → Nat → Except String (String × Nat × Nat)
  | [], _ => .error "All proxy attempts failed. The website may be blocking requests or temporarily unavailable."
  | proxy :: rest, elapsed =>
    let proxyUrl := proxy ++ encodeURIComponent url
    match net.attempt proxyUrl timeout with
    | (d, none) => tryProxies net url timeout rest (elapsed + d)
    | (d, some r) =>
      if containsSubstr proxy "allorigins.win" then
        match r.json with
        | none => tryProxies net url timeout rest (elapsed + d)
        | some env => .ok (env.contents, envelopeStatus env.http_code, elapsed + d)
      else
        .ok (r.body, r.status, elapsed + d)

/-- `fetchWithProxy(url, timeout = 15000)`: direct fetch with a 5000 ms
    budget first; on failure the relay chain with `timeout` ms each.
    Returns `(html, status, loadTime)`. -/
def fetchWithProxy (net : Net) (url : String) (timeout : Nat := 15000) :
    Except String (String × Nat × Nat) :=
  match net.attempt url 5000 with
  | (d, some r) => .ok (r.body, r.status, d)
  | (d, none) => tryProxies net url timeout corsProxies d

/-! ## URL environment and document model

`new URL(s)` / `new URL(s, base)` are browser built-ins; they are modelled as
an oracle returning the parsed parts (`none` = the constructor throws).
`DOMParser.parseFromString` never fails, so a fetched page is abstracted to
the `Doc` record holding exactly the projections of the DOM tree that the
checks query (selector results, attribute values, element counts). -/

/-- Parsed URL parts as the code reads them. -/
structure UrlParts where
  href : String
  hostname : String
  origin : String
deriving DecidableEq, Repr

/-- URL-constructor oracle: absolute parse and base-relative resolution. -/
structure UrlEnv where
  parse : String → Option UrlParts
  resolve : String → String → Option UrlParts

/-- `<img>` element: the attributes the checks read. -/
structure Img where
  alt : Option String
  src : String := ""
  loadingLazy : Bool := false
  widthAttr : Option String := none
  heightAttr : Option String := none
  styleWidth : Bool := false
  styleHeight : Bool := false
deriving DecidableEq, Repr

/-- `<a href>` element: href / textContent / rel as the checks read them. -/
structure Anchor where
  href : Option String
  text : String := ""
  rel : Option String := none
deriving DecidableEq, Repr

/-- Queryable projections of one parsed page (`Document`).  A
    `script[type="application/ld+json"]` is abstracted to its `JSON.parse`
    outcome: `none` = parse throws, `some b` = parses with `b` recording
    presence of both `@context` and `@type`. -/
structure Doc where
  title : Option String := none
  descriptionTag : Option (Option String) := none
  viewport : Option (Option String) := none
  canonical : Option (Option String) := none
  ogTitle : Bool := false
  ogDescription : Bool := false
  ogImage : Bool := false
  ogUrl : Bool := false
  ogTagCount : Nat := 0
  robotsMeta : Option (Option String) := none
  htmlLang : Option String := none
  headings : List (Nat × String) := []
  imgs : List Img := []
  anchors : List Anchor := []
  ldScripts : List (Option Bool) := []
  stylesheetCount : Nat := 0
  blockingScriptCount : Nat := 0
  scriptSrcCount : Nat := 0
  hasMain : Bool := false
  hasHeader : Bool := false
  hasFooter : Bool := false
  hasNav : Bool := false
  hasArticle : Bool := false
  hasSection : Bool := false
  hasAside : Bool := false
  hasNavRoleOrMenu : Bool := false
  hasBreadcrumbs : Bool := false
  hasSitemapLink : Bool := false
  hreflangCount : Nat := 0
deriving DecidableEq, Repr

/-- `doc.querySelectorAll('h1')` texts, derived from the heading list. -/
def Doc.h1Texts (d : Doc) : List String :=
  (d.headings.filter (fun h => h.1 = 1)).map (fun h => h.2)

/-- The seven semantic HTML5 tags present on the page, in catalog order. -/
def Doc.semanticFound (d : Doc) : List String :=
  ([("main", d.hasMain), ("header", d.hasHeader), ("footer", d.hasFooter),
    ("nav", d.hasNav), ("article", d.hasArticle), ("section", d.hasSection),
    ("aside", d.hasAside)].filter (fun p => p.2)).map (fun p => p.1)

/-- Response headers read by the performance module. -/
structure HeadersModel where
  contentEncoding : Option String := none
  cacheControl : Option String := none
  expires : Option String := none
  etag : Option String := none
  lastModified : Option String := none
deriving DecidableEq, Repr

/-- Outcome of `fetchWithProxy` + `parseHTML` for one page, as consumed by
    the single-page analyzers (`none` at the call site = retrieval threw). -/
structure PageFetch where
  doc : Doc
  status : Nat := 200
  loadTime : Nat := 0
  headers : HeadersModel := {}
  htmlLength : Nat := 0
deriving DecidableEq, Repr

/-- The shared URL normalisation prefixing `https://` when no scheme. -/
def normalizeUrl (url : String) : String :=
  if ¬ jsStartsWith url "http://" && ¬ jsStartsWith url "https://" then
    "https://" ++ url
  else url

/-- JS falsy test for an attribute value: absent or the empty string. -/
def attrFalsy (a : Option String) : Bool :=
  match a with
  | none => true
  | some s => s = ""

/-! ## Single-page SEO module (`seoAnalyzer.ts`) -/

namespace Seo

/-- `SEOIssue` of `seoAnalyzer.ts` (category kept as its literal string). -/
structure SEOIssue where
  type : IssueType
  category : String
  message : String
  priority : Priority
  element : Option String := none
  recommendation : Option String := none
deriving DecidableEq, Repr

/-- `analyzeMetaTags`: title, meta description, viewport, canonical,
    Open Graph (three tags), robots meta — in source emission order. -/
def analyzeMetaTags (d : Doc) : List SEOIssue :=
  let titlePart :=
    match d.title with
    | none =>
      [{ type := .error, category := "meta", message := "Missing page title",
         priority := .high,
         recommendation := some "Add a descriptive title tag (50-60 characters)" }]
    | some t =>
      if jsTrim t = "" then
        [{ type := .error, category := "meta", message := "Missing page title",
           priority := .high,
           recommendation := some "Add a descriptive title tag (50-60 characters)" }]
      else
        let titleLength := t.length
        if titleLength < 30 then
          [{ type := .warning, category := "meta",
             message := s!"Title too short ({titleLength} characters)",
             priority := .medium, element := some t,
             recommendation := some "Expand title to 50-60 characters for better SEO" }]
        else if titleLength > 60 then
          [{ type := .warning, category := "meta",
             message := s!"Title too long ({titleLength} characters)",
             priority := .medium, element := some t,
             recommendation := some "Shorten title to under 60 characters" }]
        else
          [{ type := .success, category := "meta",
             message := s!"Title length optimal ({titleLength} characters)",
             priority := .low, element := some t }]
  let descPart :=
    let missing :=
      [{ type := .error, category := "meta",
         message := "Missing meta description", priority := .high,
         recommendation := some "Add a compelling meta description (150-160 characters)" }]
    match d.descriptionTag with
    | none => missing
    | some none => missing
    | some (some c) =>
      if jsTrim c = "" then missing
      else
        let descLength := c.length
        if descLength < 120 then
          [{ type := .warning, category := "meta",
             message := s!"Meta description too short ({descLength} characters)",
             priority := .medium, element := some c,
             recommendation := some "Expand description to 150-160 characters" }]
        else if descLength > 160 then
          [{ type := .warning, category := "meta",
             message := s!"Meta description too long ({descLength} characters)",
             priority := .medium, element := some c,
             recommendation := some "Shorten description to under 160 characters" }]
        else
          [{ type := .success, category := "meta",
             message := s!"Meta description length optimal ({descLength} characters)",
             priority := .low, element := some c }]
  let viewportPart :=
    match d.viewport with
    | none =>
      [{ type := .error, category := "meta",
         message := "Missing viewport meta tag", priority := .high,
         recommendation := some "Add viewport meta tag for mobile responsiveness" }]
    | some content =>
      [{ type := .success, category := "meta",
         message := "Viewport meta tag present", priority := .low,
         element := some (content.getD "") }]
  let canonicalPart :=
    match d.canonical with
    | none =>
      [{ type := .warning, category := "meta",
         message := "Missing canonical tag", priority := .medium,
         recommendation := some "Add canonical tag to prevent duplicate content issues" }]
    | some href =>
      [{ type := .success, category := "meta",
         message := "Canonical tag present", priority := .low,
         element := some (href.getD "") }]
  let ogCount := (if d.ogTitle then 1 else 0) + (if d.ogDescription then 1 else 0)
    + (if d.ogImage then 1 else 0)
  let ogPart :=
    if ogCount = 0 then
      [{ type := .warning, category := "meta",
         message := "No Open Graph tags found", priority := .medium,
         recommendation := some "Add og:title, og:description, and og:image for better social sharing" }]
    else if ogCount < 3 then
      [{ type := .warning, category := "meta",
         message := s!"Incomplete Open Graph tags ({ogCount}/3 found)",
         priority := .medium,
         recommendation := some "Add missing Open Graph tags for complete social media optimization" }]
    else
      [{ type := .success, category := "meta",
         message := "Complete Open Graph tags found", priority := .low }]
  let robotsPart :=
    match d.robotsMeta with
    | none => []
    | some attr =>
      let robotsContent := attr.getD ""
      (if containsSubstr robotsContent "noindex" then
        [{ type := .warning, category := "indexability",
           message := "Page set to noindex", priority := .high,
           element := some robotsContent,
           recommendation := some "Remove noindex if you want this page to be indexed" }]
       else []) ++
      (if containsSubstr robotsContent "nofollow" then
        [{ type := .info, category := "indexability",
           message := "Page set to nofollow", priority := .medium,
           element := some robotsContent,
           recommendation := some "Consider if nofollow is necessary for this page" }]
       else [])
  titlePart ++ descPart ++ viewportPart ++ canonicalPart ++ ogPart ++ robotsPart

/-- Heading-hierarchy scan: any jump of more than one level between
    consecutive headings (fold carrying the previous level). -/
def hierarchyBroken (headings : List (Nat × String)) : Bool :=
  (headings.foldl
    (fun (st : Nat × Bool) h =>
      (h.1, st.2 || (st.1 > 0 && h.1 > st.1 + 1)))
    (0, false)).2

/-- `analyzeHeaders`: H1 count then hierarchy. -/
def analyzeHeaders (d : Doc) : List SEOIssue :=
  let h1Tags := d.h1Texts
  let h1Part :=
    if h1Tags.length = 0 then
      [{ type := .error, category := "headers", message := "Missing H1 tag",
         priority := .high,
         recommendation := some "Add exactly one H1 tag per page" }]
    else if h1Tags.length > 1 then
      [{ type := .warning, category := "headers",
         message := s!"Multiple H1 tags found ({h1Tags.length})",
         priority := .medium,
         element := some (String.intercalate ", " (h1Tags.map (fun t => jsTrim t))),
         recommendation := some "Use only one H1 tag per page" }]
    else
      [{ type := .success, category := "headers",
         message := "H1 tag structure correct", priority := .low,
         element := some (jsTrim (h1Tags.headD "")) }]
  let hierarchyPart :=
    if d.headings.length > 1 then
      let headerStructure := d.headings.map
        (fun h => s!"H{h.1}: " ++ jsTake (jsTrim h.2) 50 ++ "...")
      if hierarchyBroken d.headings then
        [{ type := .warning, category := "headers",
           message := "Header hierarchy not properly structured",
           priority := .medium,
           element := some (String.intercalate " | " (headerStructure.take 5)),
           recommendation := some "Ensure headers follow proper hierarchy (H1 → H2 → H3, etc.)" }]
      else
        [{ type := .success, category := "headers",
           message := s!"Header hierarchy properly structured ({d.headings.length} headers)",
           priority := .low }]
    else []
  h1Part ++ hierarchyPart

/-- File-name shown for a problematic image:
    `src.substring(src.lastIndexOf('/') + 1) || 'unknown'`. -/
def imgFileName (src : String) : String :=
  let fn := (splitOnStr src "/").getLastD ""
  if fn = "" then "unknown" else fn

/-- Single pass over the images: count of falsy-`alt` images, count of
    whitespace-only-`alt` images, and the offending file names in order. -/
def imgScan (imgs : List Img) : Nat × Nat × List String :=
  imgs.foldl
    (fun (st : Nat × Nat × List String) img =>
      if attrFalsy img.alt then
        (st.1 + 1, st.2.1, st.2.2 ++ [imgFileName img.src])
      else if jsTrim (img.alt.getD "") = "" then
        (st.1, st.2.1 + 1, st.2.2 ++ [imgFileName img.src])
      else st)
    (0, 0, [])

/-- `analyzeImages` of the single-page SEO module: a falsy `alt`
    (absent or empty) is an Error/high; a whitespace-only `alt` is a
    Warning/medium; Success/low only when the page has images and none of
    the two counters fired; plus the lazy-loading hint. -/
def analyzeImages (d : Doc) : List SEOIssue :=
  let scan := imgScan d.imgs
  let imagesWithoutAlt := scan.1
  let imagesWithEmptyAlt := scan.2.1
  let problematicImages := scan.2.2
  (if imagesWithoutAlt > 0 then
    [{ type := .error, category := "images",
       message := s!"{imagesWithoutAlt} images missing alt attributes",
       priority := .high,
       element := some (String.intercalate ", " (problematicImages.take 3)),
       recommendation := some "Add descriptive alt text to all images for accessibility and SEO" }]
   else []) ++
  (if imagesWithEmptyAlt > 0 then
    [{ type := .warning, category := "images",
       message := s!"{imagesWithEmptyAlt} images with empty alt attributes",
       priority := .medium,
       element := some (String.intercalate ", " (problematicImages.take 3)),
       recommendation := some "Add descriptive alt text or use alt=\"\" for decorative images" }]
   else []) ++
  (if d.imgs.length > 0 && imagesWithoutAlt = 0 && imagesWithEmptyAlt = 0 then
    [{ type := .success, category := "images",
       message := s!"All {d.imgs.length} images have alt attributes",
       priority := .low }]
   else []) ++
  (if d.imgs.length > 3 && (d.imgs.countP (fun i => i.loadingLazy)) = 0 then
    [{ type := .info, category := "performance",
       message := "Consider adding lazy loading to images", priority := .low,
       recommendation := some "Add loading=\"lazy\" to images below the fold for better performance" }]
   else [])

/-- Link-scan counters of `analyzeLinks`:
    internal, external, nofollow-external, broken suspects. -/
def linkScan (E : UrlEnv) (anchors : List Anchor) (currentDomain : String) :
    Nat × Nat × Nat × Nat :=
  anchors.foldl
    (fun (st : Nat × Nat × Nat × Nat) a =>
      match a.href with
      | none => st
      | some h =>
        if h = "" then st
        else
          let (internal, external, nofollow, broken) := st
          if jsStartsWith h "http" then
            match E.parse h with
            | none => (internal, external, nofollow, broken + 1)
            | some lu =>
              let st2 :=
                if lu.hostname = currentDomain then
                  (internal + 1, external, nofollow, broken)
                else
                  (internal, external + 1,
                   nofollow + (if containsSubstr (a.rel.getD "") "nofollow" then 1 else 0),
                   broken)
              if h = "#" || h = "" || h = "javascript:void(0)" then
                (st2.1, st2.2.1, st2.2.2.1, st2.2.2.2 + 1)
              else st2
          else
            let st2 :=
              if jsStartsWith h "/" ||
                 (¬ containsSubstr h "://" && ¬ jsStartsWith h "#" &&
                  ¬ jsStartsWith h "mailto:" && ¬ jsStartsWith h "tel:") then
               (internal + 1, external, nofollow, broken)
              else st
            if h = "#" || h = "" || h = "javascript:void(0)" then
              (st2.1, st2.2.1, st2.2.2.1, st2.2.2.2 + 1)
            else st2)
    (0, 0, 0, 0)

/-- `analyzeLinks` (the current domain is `new URL(url).hostname`, already
    parsed successfully by `analyzePage` before this check runs). -/
def analyzeLinks (E : UrlEnv) (d : Doc) (currentDomain : String) : List SEOIssue :=
  let (internalLinks, externalLinks, noFollowLinks, brokenLinkSuspects) :=
    linkScan E d.anchors currentDomain
  (if internalLinks = 0 then
    [{ type := .warning, category := "links",
       message := "No internal links found", priority := .medium,
       recommendation := some "Add internal links to improve site navigation and SEO" }]
   else
    [{ type := .success, category := "links",
       message := s!"{internalLinks} internal links found", priority := .low }]) ++
  (if externalLinks > 0 then
    [{ type := .info, category := "links",
       message := s!"{externalLinks} external links ({noFollowLinks} with nofollow)",
       priority := .low,
       recommendation := some
         (if noFollowLinks * 100 < 30 * externalLinks then
           "Consider adding nofollow to untrusted external links"
          else "Good use of nofollow attributes") }]
   else []) ++
  (if brokenLinkSuspects > 0 then
    [{ type := .warning, category := "links",
       message := s!"{brokenLinkSuspects} potentially broken or empty links",
       priority := .medium,
       recommendation := some "Review and fix broken or placeholder links" }]
   else [])

/-- `analyzeStructure`: structured-data scripts, `lang`, semantic tags. -/
def analyzeStructure (d : Doc) : List SEOIssue :=
  let schemaPart :=
    if d.ldScripts.length = 0 then
      [{ type := .warning, category := "structure",
         message := "No structured data (Schema.org) found", priority := .medium,
         recommendation := some "Add structured data markup for better search results" }]
    else
      [{ type := .success, category := "structure",
         message := s!"Structured data found ({d.ldScripts.length} scripts)",
         priority := .low }]
  let langPart :=
    match d.htmlLang with
    | none =>
      [{ type := .warning, category := "structure",
         message := "Missing language attribute on HTML element",
         priority := .medium,
         recommendation := some "Add lang attribute to HTML element (e.g., lang=\"en\")" }]
    | some htmlLang =>
      [{ type := .success, category := "structure",
         message := s!"Language attribute set to \"{htmlLang}\"",
         priority := .low, element := some htmlLang }]
  let foundElements := d.semanticFound
  let semanticPart :=
    if foundElements.length < 3 then
      [{ type := .info, category := "structure",
         message := s!"Limited semantic HTML5 elements ({foundElements.length}/7 found)",
         priority := .low,
         element := some (String.intercalate ", " foundElements),
         recommendation := some "Consider using more semantic HTML5 elements for better structure" }]
    else
      [{ type := .success, category := "structure",
         message := s!"Good use of semantic HTML5 elements ({foundElements.length}/7 found)",
         priority := .low, element := some (String.intercalate ", " foundElements) }]
  schemaPart ++ langPart ++ semanticPart

/-- `analyzePerformance`: load-time banding and render-blocking hints. -/
def analyzePerformance (d : Doc) (loadTime : Nat) : List SEOIssue :=
  (if loadTime > 3000 then
    [{ type := .error, category := "performance",
       message := s!"Slow page load time ({loadTime}ms)", priority := .high,
       recommendation := some "Optimize images, minify CSS/JS, and consider using a CDN" }]
   else if loadTime > 1500 then
    [{ type := .warning, category := "performance",
       message := s!"Moderate page load time ({loadTime}ms)", priority := .medium,
       recommendation := some "Consider optimizing for faster load times (target <1500ms)" }]
   else
    [{ type := .success, category := "performance",
       message := s!"Good page load time ({loadTime}ms)", priority := .low }]) ++
  (if d.blockingScriptCount > 3 then
    [{ type := .warning, category := "performance",
       message := s!"{d.blockingScriptCount} render-blocking scripts found",
       priority := .medium,
       recommendation := some "Consider adding async or defer attributes to non-critical scripts" }]
   else []) ++
  (if d.stylesheetCount > 5 then
    [{ type := .info, category := "performance",
       message := s!"{d.stylesheetCount} stylesheets found", priority := .low,
       recommendation := some "Consider combining CSS files to reduce HTTP requests" }]
   else [])

/-- The per-issue scoring fold of `analyzePage` (before the clamp):
    start at 100; Error deducts 15/10/5 by priority, Warning 8/5/2,
    Info a flat 1, Success nothing. -/
def calcScore (issues : List SEOIssue) : Int :=
  issues.foldl
    (fun score issue =>
      match issue.type with
      | .error =>
        score - (match issue.priority with
                 | .high => 15 | .medium => 10 | .low => 5)
      | .warning =>
        score - (match issue.priority with
                 | .high => 8 | .medium => 5 | .low => 2)
      | .info => score - 1
      | .success => score)
    100

/-- Metrics block of the SEO report. -/
structure SEOMetrics where
  titleLength : Nat := 0
  descriptionLength : Nat := 0
  h1Count : Nat := 0
  imageCount : Nat := 0
  imagesWithoutAlt : Nat := 0
  internalLinks : Nat := 0
  externalLinks : Nat := 0
  loadTime : Nat := 0
  responseCode : Nat := 0
deriving DecidableEq, Repr

/-- The metric link count uses a looser internal condition than
    `analyzeLinks` (no mailto:/tel: exclusion) and skips unparseable URLs. -/
def metricLinkScan (E : UrlEnv) (anchors : List Anchor) (currentDomain : String) :
    Nat × Nat :=
  anchors.foldl
    (fun (st : Nat × Nat) a =>
      match a.href with
      | none => st
      | some h =>
        if h = "" then st
        else if jsStartsWith h "http" then
          match E.parse h with
          | none => st
          | some lu =>
            if lu.hostname = currentDomain then (st.1 + 1, st.2) else (st.1, st.2 + 1)
        else if jsStartsWith h "/" || (¬ containsSubstr h "://" && ¬ jsStartsWith h "#") then
          (st.1 + 1, st.2)
        else st)
    (0, 0)

/-- `SEOAuditResult` (timestamp omitted from the embedding). -/
structure SEOAuditResult where
  url : String
  score : Int
  issues : List SEOIssue
  metrics : SEOMetrics
deriving DecidableEq, Repr

/-- The catch-branch report of `analyzePage`. -/
def errorResult (url msg : String) : SEOAuditResult :=
  { url := url, score := 0,
    issues := [{ type := .error, category := "indexability",
                 message := "Analysis failed: " ++ msg, priority := .high,
                 recommendation := some "Check if the URL is correct and accessible. Some sites may block automated requests." }],
    metrics := {} }

/-- `SEOAnalyzer.analyzePage`: normalise the URL, parse it, fetch with the
    relay chain (abstracted to `fetch`), run the six checks, fold the score
    and clamp; any throw lands in the catch branch (`errorResult`). -/
def analyzePage (E : UrlEnv) (fetch : Option PageFetch) (url : String) :
    SEOAuditResult :=
  let url' := normalizeUrl url
  match E.parse url' with
  | none => errorResult url' "Invalid URL"
  | some urlObj =>
    match fetch with
    | none => errorResult url'
        "All proxy attempts failed. The website may be blocking requests or temporarily unavailable."
    | some pf =>
      let statusIssues :=
        if pf.status ≥ 400 then
          [{ type := .error, category := "indexability",
             message := s!"HTTP {pf.status} error", priority := .high,
             recommendation := some "Fix server response issues" : SEOIssue }]
        else if pf.status ≥ 300 then
          [{ type := .warning, category := "indexability",
             message := s!"HTTP {pf.status} redirect", priority := .medium,
             recommendation := some "Check if redirect is intentional" : SEOIssue }]
        else []
      let issues := statusIssues ++ analyzeMetaTags pf.doc ++ analyzeHeaders pf.doc
        ++ analyzeImages pf.doc ++ analyzeLinks E pf.doc urlObj.hostname
        ++ analyzeStructure pf.doc ++ analyzePerformance pf.doc pf.loadTime
      let links := metricLinkScan E pf.doc.anchors urlObj.hostname
      { url := url',
        score := clampScore (calcScore issues),
        issues := issues,
        metrics :=
          { titleLength := (d0.title.getD "").length
          , descriptionLength := ((d0.descriptionTag.getD none).getD "").length
          , h1Count := d0.h1Texts.length
          , imageCount := d0.imgs.length
          , imagesWithoutAlt := d0.imgs.countP (fun i => attrFalsy i.alt)
          , internalLinks := links.1
          , externalLinks := links.2
          , loadTime := pf.loadTime
          , responseCode := pf.status } }
where
  d0 := (fetch.getD { doc := {} }).doc

end Seo

/-! ## Technical SEO module (`technicalSeoAnalyzer.ts`)

Each check emits exactly one `CheckRecord` (via `addCheck`, a per-invocation
accumulator reset at the start of `analyzePage`) plus zero or more issues;
the embedding threads the record list explicitly in emission order. -/

namespace Tech

/-- `TechnicalSEOIssue`. -/
structure TechnicalSEOIssue where
  type : IssueType
  category : String
  message : String
  priority : Priority
  element : Option String := none
  recommendation : Option String := none
  impact : String
  actionable : Bool
  checkName : String
  status : CheckStatus
deriving DecidableEq, Repr

/-- `analyzeIndexability`: HTTP status banding, HTTPS, robots meta. -/
def analyzeIndexability (d : Doc) (url : String) (status : Nat) :
    List TechnicalSEOIssue × List CheckRecord :=
  let statusPart : List TechnicalSEOIssue × List CheckRecord :=
    if status ≥ 400 then
      ([{ type := .error, category := "indexability",
          message := s!"HTTP {status} error - Page not accessible",
          priority := .high,
          impact := "Page cannot be indexed by search engines",
          recommendation := some "Fix server configuration to return 200 status code",
          actionable := true, checkName := "HTTP Status Code", status := .failed }],
       [{ name := "HTTP Status Code", status := .failed,
          description := "Check if page returns successful HTTP status",
          result := s!"{status} Error",
          impact := "Page cannot be indexed by search engines",
          recommendation := some "Fix server configuration to return 200 status code" }])
    else if status ≥ 300 && status < 400 then
      ([{ type := .warning, category := "redirects",
          message := s!"HTTP {status} redirect detected", priority := .medium,
          impact := "May dilute link equity and slow crawling",
          recommendation := some "Minimize redirect chains and use 301 redirects for permanent moves",
          actionable := true, checkName := "HTTP Status Code", status := .warning }],
       [{ name := "HTTP Status Code", status := .warning,
          description := "Check if page returns successful HTTP status",
          result := s!"{status} Redirect",
          impact := "May dilute link equity and slow crawling",
          recommendation := some "Minimize redirect chains and use 301 redirects for permanent moves" }])
    else
      ([{ type := .success, category := "indexability",
          message := s!"HTTP {status} - Page accessible", priority := .low,
          impact := "Page can be properly indexed",
          actionable := false, checkName := "HTTP Status Code", status := .passed }],
       [{ name := "HTTP Status Code", status := .passed,
          description := "Check if page returns successful HTTP status",
          result := s!"{status} Success",
          impact := "Page can be properly indexed" }])
  let isHttps := jsStartsWith url "https://"
  let httpsPart : List TechnicalSEOIssue × List CheckRecord :=
    if ¬ isHttps then
      ([{ type := .error, category := "security",
          message := "Site not using HTTPS", priority := .high,
          impact := "Security warning in browsers, negative ranking factor",
          recommendation := some "Implement SSL certificate and redirect HTTP to HTTPS",
          actionable := true, checkName := "HTTPS Security", status := .failed }],
       [{ name := "HTTPS Security", status := .failed,
          description := "Check if site uses HTTPS encryption", result := "HTTP only",
          impact := "Security warning in browsers, negative ranking factor",
          recommendation := some "Implement SSL certificate and redirect HTTP to HTTPS" }])
    else
      ([{ type := .success, category := "security",
          message := "HTTPS enabled", priority := .low,
          impact := "Secure connection established",
          actionable := false, checkName := "HTTPS Security", status := .passed }],
       [{ name := "HTTPS Security", status := .passed,
          description := "Check if site uses HTTPS encryption", result := "HTTPS enabled",
          impact := "Secure connection established" }])
  let robotsPart : List TechnicalSEOIssue × List CheckRecord :=
    match d.robotsMeta with
    | some attr =>
      let robotsContent := attr.getD ""
      let indexPart : List TechnicalSEOIssue × List CheckRecord :=
        if containsSubstr robotsContent "noindex" then
          ([{ type := .error, category := "indexability",
              message := "Page blocked from indexing (noindex)", priority := .high,
              element := some robotsContent,
              impact := "Page will not appear in search results",
              recommendation := some "Remove noindex directive if page should be indexed",
              actionable := true, checkName := "Robots Meta - Indexing", status := .failed }],
           [{ name := "Robots Meta - Indexing", status := .failed,
              description := "Check if page allows indexing",
              result := "noindex directive found",
              impact := "Page will not appear in search results",
              recommendation := some "Remove noindex directive if page should be indexed" }])
        else
          ([], [{ name := "Robots Meta - Indexing", status := .passed,
                  description := "Check if page allows indexing",
                  result := "No noindex directive", impact := "Page can be indexed" }])
      let followPart : List TechnicalSEOIssue × List CheckRecord :=
        if containsSubstr robotsContent "nofollow" then
          ([{ type := .warning, category := "crawlability",
              message := "Links blocked from following (nofollow)", priority := .medium,
              element := some robotsContent,
              impact := "Search engines won\u0027t follow links on this page",
              recommendation := some "Remove nofollow if links should pass authority",
              actionable := true, checkName := "Robots Meta - Following", status := .warning }],
           [{ name := "Robots Meta - Following", status := .warning,
              description := "Check if page allows link following",
              result := "nofollow directive found",
              impact := "Search engines won\u0027t follow links on this page",
              recommendation := some "Remove nofollow if links should pass authority" }])
        else
          ([], [{ name := "Robots Meta - Following", status := .passed,
                  description := "Check if page allows link following",
                  result := "No nofollow directive", impact := "Links can be followed" }])
      (indexPart.1 ++ followPart.1, indexPart.2 ++ followPart.2)
    | none =>
      ([{ type := .success, category := "indexability",
          message := "No robots restrictions found", priority := .low,
          impact := "Page can be freely indexed and crawled",
          actionable := false, checkName := "Robots Meta", status := .passed }],
       [{ name := "Robots Meta - Indexing", status := .passed,
          description := "Check if page allows indexing",
          result := "No robots restrictions",
          impact := "Page can be freely indexed and crawled" },
        { name := "Robots Meta - Following", status := .passed,
          description := "Check if page allows link following",
          result := "No robots restrictions", impact := "Links can be followed" }])
  (statusPart.1 ++ httpsPart.1 ++ robotsPart.1,
   statusPart.2 ++ httpsPart.2 ++ robotsPart.2)

/-- `analyzeCanonicalization`: presence, emptiness, resolvability and
    self-reference of `link[rel="canonical"]`. -/
def analyzeCanonicalization (E : UrlEnv) (d : Doc) (url : String) :
    List TechnicalSEOIssue × List CheckRecord :=
  match d.canonical with
  | none =>
    ([{ type := .warning, category := "canonicalization",
        message := "Missing canonical tag", priority := .medium,
        impact := "Risk of duplicate content issues",
        recommendation := some "Add canonical tag to specify preferred URL version",
        actionable := true, checkName := "Canonical Tag", status := .warning }],
     [{ name := "Canonical Tag", status := .warning,
        description := "Check for canonical URL specification",
        result := "Missing canonical tag", impact := "Risk of duplicate content issues",
        recommendation := some "Add canonical tag to specify preferred URL version" }])
  | some hrefAttr =>
    if attrFalsy hrefAttr then
      ([{ type := .error, category := "canonicalization",
          message := "Empty canonical tag", priority := .high,
          impact := "Invalid canonical signal to search engines",
          recommendation := some "Add proper URL to canonical tag",
          actionable := true, checkName := "Canonical Tag", status := .failed }],
       [{ name := "Canonical Tag", status := .failed,
          description := "Check for canonical URL specification",
          result := "Empty canonical tag",
          impact := "Invalid canonical signal to search engines",
          recommendation := some "Add proper URL to canonical tag" }])
    else
      let canonicalUrl := hrefAttr.getD ""
      match E.resolve canonicalUrl url, E.parse url with
      | some canonicalUrlObj, some currentUrlObj =>
        if canonicalUrlObj.href ≠ currentUrlObj.href then
          ([{ type := .info, category := "canonicalization",
              message := "Canonical points to different URL", priority := .low,
              element := some canonicalUrl,
              impact := "This page defers authority to canonical URL",
              recommendation := some "Verify canonical URL is correct",
              actionable := false, checkName := "Canonical Tag", status := .info }],
           [{ name := "Canonical Tag", status := .info,
              description := "Check for canonical URL specification",
              result := "Points to different URL",
              impact := "This page defers authority to canonical URL",
              recommendation := some "Verify canonical URL is correct" }])
        else
          ([{ type := .success, category := "canonicalization",
              message := "Self-referencing canonical tag present", priority := .low,
              element := some canonicalUrl,
              impact := "Clear canonical signal established",
              actionable := false, checkName := "Canonical Tag", status := .passed }],
           [{ name := "Canonical Tag", status := .passed,
              description := "Check for canonical URL specification",
              result := "Self-referencing canonical",
              impact := "Clear canonical signal established" }])
      | _, _ =>
        ([{ type := .error, category := "canonicalization",
            message := "Invalid canonical URL format", priority := .high,
            element := some canonicalUrl,
            impact := "Search engines cannot process canonical signal",
            recommendation := some "Fix canonical URL format",
            actionable := true, checkName := "Canonical Tag", status := .failed }],
         [{ name := "Canonical Tag", status := .failed,
            description := "Check for canonical URL specification",
            result := "Invalid URL format",
            impact := "Search engines cannot process canonical signal",
            recommendation := some "Fix canonical URL format" }])

/-- `analyzeMetaTags` (technical variant): title, meta description,
    viewport, language declaration. -/
def analyzeMetaTags (d : Doc) : List TechnicalSEOIssue × List CheckRecord :=
  let titlePart : List TechnicalSEOIssue × List CheckRecord :=
    let missing : List TechnicalSEOIssue × List CheckRecord :=
      ([{ type := .error, category := "meta", message := "Missing title tag",
          priority := .high, impact := "No title will appear in search results",
          recommendation := some "Add descriptive title tag (50-60 characters)",
          actionable := true, checkName := "Title Tag", status := .failed }],
       [{ name := "Title Tag", status := .failed,
          description := "Check for page title", result := "Missing title tag",
          impact := "No title will appear in search results",
          recommendation := some "Add descriptive title tag (50-60 characters)" }])
    match d.title with
    | none => missing
    | some t =>
      if jsTrim t = "" then missing
      else
        let titleLength := t.length
        if titleLength < 30 then
          ([{ type := .warning, category := "meta",
              message := s!"Title too short ({titleLength} characters)",
              priority := .medium, element := some t,
              impact := "Underutilized space in search results",
              recommendation := some "Expand title to 50-60 characters",
              actionable := true, checkName := "Title Tag", status := .warning }],
           [{ name := "Title Tag", status := .warning,
              description := "Check for page title",
              result := s!"Too short ({titleLength} chars)",
              impact := "Underutilized space in search results",
              recommendation := some "Expand title to 50-60 characters" }])
        else if titleLength > 60 then
          ([{ type := .warning, category := "meta",
              message := s!"Title too long ({titleLength} characters)",
              priority := .medium, element := some t,
              impact := "Title may be truncated in search results",
              recommendation := some "Shorten title to under 60 characters",
              actionable := true, checkName := "Title Tag", status := .warning }],
           [{ name := "Title Tag", status := .warning,
              description := "Check for page title",
              result := s!"Too long ({titleLength} chars)",
              impact := "Title may be truncated in search results",
              recommendation := some "Shorten title to under 60 characters" }])
        else
          ([{ type := .success, category := "meta",
              message := s!"Title length optimal ({titleLength} characters)",
              priority := .low, element := some t,
              impact := "Title will display properly in search results",
              actionable := false, checkName := "Title Tag", status := .passed }],
           [{ name := "Title Tag", status := .passed,
              description := "Check for page title",
              result := s!"Optimal length ({titleLength} chars)",
              impact := "Title will display properly in search results" }])
  let descPart : List TechnicalSEOIssue × List CheckRecord :=
    let missing : List TechnicalSEOIssue × List CheckRecord :=
      ([{ type := .error, category := "meta", message := "Missing meta description",
          priority := .high,
          impact := "Search engines will generate description automatically",
          recommendation := some "Add compelling meta description (150-160 characters)",
          actionable := true, checkName := "Meta Description", status := .failed }],
       [{ name := "Meta Description", status := .failed,
          description := "Check for meta description",
          result := "Missing meta description",
          impact := "Search engines will generate description automatically",
          recommendation := some "Add compelling meta description (150-160 characters)" }])
    match d.descriptionTag with
    | none => missing
    | some none => missing
    | some (some c) =>
      if jsTrim c = "" then missing
      else
        let descLength := c.length
        if descLength < 120 then
          ([{ type := .warning, category := "meta",
              message := s!"Meta description too short ({descLength} characters)",
              priority := .medium, element := some c,
              impact := "Underutilized space in search results",
              recommendation := some "Expand description to 150-160 characters",
              actionable := true, checkName := "Meta Description", status := .warning }],
           [{ name := "Meta Description", status := .warning,
              description := "Check for meta description",
              result := s!"Too short ({descLength} chars)",
              impact := "Underutilized space in search results",
              recommendation := some "Expand description to 150-160 characters" }])
        else if descLength > 160 then
          ([{ type := .warning, category := "meta",
              message := s!"Meta description too long ({descLength} characters)",
              priority := .medium, element := some c,
              impact := "Description may be truncated in search results",
              recommendation := some "Shorten description to under 160 characters",
              actionable := true, checkName := "Meta Description", status := .warning }],
           [{ name := "Meta Description", status := .warning,
              description := "Check for meta description",
              result := s!"Too long ({descLength} chars)",
              impact := "Description may be truncated in search results",
              recommendation := some "Shorten description to under 160 characters" }])
        else
          ([{ type := .success, category := "meta",
              message := s!"Meta description length optimal ({descLength} characters)",
              priority := .low, element := some c,
              impact := "Description will display properly in search results",
              actionable := false, checkName := "Meta Description", status := .passed }],
           [{ name := "Meta Description", status := .passed,
              description := "Check for meta description",
              result := s!"Optimal length ({descLength} chars)",
              impact := "Description will display properly in search results" }])
  let viewportPart : List TechnicalSEOIssue × List CheckRecord :=
    match d.viewport with
    | none =>
      ([{ type := .error, category := "meta",
          message := "Missing viewport meta tag", priority := .high,
          impact := "Poor mobile user experience, mobile ranking penalty",
          recommendation := some "Add viewport meta tag for mobile responsiveness",
          actionable := true, checkName := "Viewport Meta Tag", status := .failed }],
       [{ name := "Viewport Meta Tag", status := .failed,
          description := "Check for mobile viewport configuration",
          result := "Missing viewport tag",
          impact := "Poor mobile user experience, mobile ranking penalty",
          recommendation := some "Add viewport meta tag for mobile responsiveness" }])
    | some content =>
      ([{ type := .success, category := "meta",
          message := "Viewport meta tag present", priority := .low,
          element := some (content.getD ""),
          impact := "Mobile-friendly configuration detected",
          actionable := false, checkName := "Viewport Meta Tag", status := .passed }],
       [{ name := "Viewport Meta Tag", status := .passed,
          description := "Check for mobile viewport configuration",
          result := "Viewport tag present",
          impact := "Mobile-friendly configuration detected" }])
  let langPart : List TechnicalSEOIssue × List CheckRecord :=
    match d.htmlLang with
    | none =>
      ([{ type := .warning, category := "structure",
          message := "Missing language declaration", priority := .medium,
          impact := "Search engines may not understand page language",
          recommendation := some "Add lang attribute to HTML element (e.g., lang=\"en\")",
          actionable := true, checkName := "Language Declaration", status := .warning }],
       [{ name := "Language Declaration", status := .warning,
          description := "Check for HTML language attribute",
          result := "Missing lang attribute",
          impact := "Search engines may not understand page language",
          recommendation := some "Add lang attribute to HTML element (e.g., lang=\"en\")" }])
    | some htmlLang =>
      ([{ type := .success, category := "structure",
          message := s!"Language declared as \"{htmlLang}\"", priority := .low,
          element := some htmlLang,
          impact := "Clear language signal for search engines",
          actionable := false, checkName := "Language Declaration", status := .passed }],
       [{ name := "Language Declaration", status := .passed,
          description := "Check for HTML language attribute",
          result := s!"Language: {htmlLang}",
          impact := "Clear language signal for search engines" }])
  (titlePart.1 ++ descPart.1 ++ viewportPart.1 ++ langPart.1,
   titlePart.2 ++ descPart.2 ++ viewportPart.2 ++ langPart.2)

/-- `analyzeHeaders` (technical variant). -/
def analyzeHeaders (d : Doc) : List TechnicalSEOIssue × List CheckRecord :=
  let h1Tags := d.h1Texts
  let h1Part : List TechnicalSEOIssue × List CheckRecord :=
    if h1Tags.length = 0 then
      ([{ type := .error, category := "headers", message := "Missing H1 tag",
          priority := .high,
          impact := "No clear page topic signal for search engines",
          recommendation := some "Add exactly one H1 tag per page",
          actionable := true, checkName := "H1 Tag", status := .failed }],
       [{ name := "H1 Tag", status := .failed,
          description := "Check for main heading tag", result := "No H1 tag found",
          impact := "No clear page topic signal for search engines",
          recommendation := some "Add exactly one H1 tag per page" }])
    else if h1Tags.length > 1 then
      ([{ type := .warning, category := "headers",
          message := s!"Multiple H1 tags found ({h1Tags.length})",
          priority := .medium,
          element := some (String.intercalate ", " ((h1Tags.map (fun t => jsTrim t)).take 3)),
          impact := "Diluted topic focus, confusing for search engines",
          recommendation := some "Use only one H1 tag per page",
          actionable := true, checkName := "H1 Tag", status := .warning }],
       [{ name := "H1 Tag", status := .warning,
          description := "Check for main heading tag",
          result := s!"{h1Tags.length} H1 tags found",
          impact := "Diluted topic focus, confusing for search engines",
          recommendation := some "Use only one H1 tag per page" }])
    else
      ([{ type := .success, category := "headers",
          message := "Single H1 tag found", priority := .low,
          element := some (jsTrim (h1Tags.headD "")),
          impact := "Clear page topic established",
          actionable := false, checkName := "H1 Tag", status := .passed }],
       [{ name := "H1 Tag", status := .passed,
          description := "Check for main heading tag", result := "Single H1 tag found",
          impact := "Clear page topic established" }])
  let hierarchyPart : List TechnicalSEOIssue × List CheckRecord :=
    if d.headings.length > 1 then
      if Seo.hierarchyBroken d.headings then
        ([{ type := .warning, category := "headers",
            message := "Header hierarchy not properly structured",
            priority := .medium,
            impact := "Poor content structure understanding for search engines",
            recommendation := some "Ensure headers follow proper hierarchy (H1 → H2 → H3, etc.)",
            actionable := true, checkName := "Header Hierarchy", status := .warning }],
         [{ name := "Header Hierarchy", status := .warning,
            description := "Check header structure follows proper hierarchy",
            result := "Improper hierarchy detected",
            impact := "Poor content structure understanding for search engines",
            recommendation := some "Ensure headers follow proper hierarchy (H1 → H2 → H3, etc.)" }])
      else
        ([{ type := .success, category := "headers",
            message := s!"Header hierarchy properly structured ({d.headings.length} headers)",
            priority := .low,
            impact := "Clear content structure for search engines",
            actionable := false, checkName := "Header Hierarchy", status := .passed }],
         [{ name := "Header Hierarchy", status := .passed,
            description := "Check header structure follows proper hierarchy",
            result := s!"{d.headings.length} headers properly structured",
            impact := "Clear content structure for search engines" }])
    else
      ([], [{ name := "Header Hierarchy", status := .info,
              description := "Check header structure follows proper hierarchy",
              result := "Insufficient headers for hierarchy analysis",
              impact := "Consider adding more headers for better content structure" }])
  (h1Part.1 ++ hierarchyPart.1, h1Part.2 ++ hierarchyPart.2)

/-- `analyzeStructuredData`: JSON-LD scripts partitioned into valid
    (`@context` and `@type` both present) and invalid (parse failure or
    missing fields). -/
def analyzeStructuredData (d : Doc) : List TechnicalSEOIssue × List CheckRecord :=
  let validSchemas := d.ldScripts.countP (fun s => s = some true)
  let invalidSchemas := d.ldScripts.countP (fun s => s ≠ some true)
  let negativePart : List TechnicalSEOIssue × List CheckRecord :=
    if validSchemas = 0 && invalidSchemas = 0 then
      ([{ type := .warning, category := "structure",
          message := "No structured data found", priority := .medium,
          impact := "Missing rich snippet opportunities",
          recommendation := some "Add Schema.org structured data for better search results",
          actionable := true, checkName := "Structured Data", status := .warning }],
       [{ name := "Structured Data", status := .warning,
          description := "Check for Schema.org structured data",
          result := "No structured data found",
          impact := "Missing rich snippet opportunities",
          recommendation := some "Add Schema.org structured data for better search results" }])
    else if invalidSchemas > 0 then
      ([{ type := .error, category := "structure",
          message := s!"{invalidSchemas} invalid structured data scripts",
          priority := .high,
          impact := "Broken structured data may cause indexing issues",
          recommendation := some "Fix JSON-LD syntax errors in structured data",
          actionable := true, checkName := "Structured Data", status := .failed }],
       [{ name := "Structured Data", status := .failed,
          description := "Check for Schema.org structured data",
          result := s!"{invalidSchemas} invalid schemas",
          impact := "Broken structured data may cause indexing issues",
          recommendation := some "Fix JSON-LD syntax errors in structured data" }])
    else ([], [])
  let positivePart : List TechnicalSEOIssue × List CheckRecord :=
    if validSchemas > 0 then
      ([{ type := .success, category := "structure",
          message := s!"{validSchemas} valid structured data schemas found",
          priority := .low,
          impact := "Enhanced search result appearance potential",
          actionable := false, checkName := "Structured Data", status := .passed }],
       [{ name := "Structured Data", status := .passed,
          description := "Check for Schema.org structured data",
          result := s!"{validSchemas} valid schemas found",
          impact := "Enhanced search result appearance potential" }])
    else ([], [])
  (negativePart.1 ++ positivePart.1, negativePart.2 ++ positivePart.2)

/-- `analyzeOpenGraph`: count of the four tags `og:title`, `og:description`,
    `og:image`, `og:url`; 0 → Warning/medium, 1–3 → Warning/medium
    incomplete (`n/4`), 4 → Success/low. -/
def analyzeOpenGraph (d : Doc) : List TechnicalSEOIssue × List CheckRecord :=
  let ogCount := (if d.ogTitle then 1 else 0) + (if d.ogDescription then 1 else 0)
    + (if d.ogImage then 1 else 0) + (if d.ogUrl then 1 else 0)
  if ogCount = 0 then
    ([{ type := .warning, category := "meta",
        message := "No Open Graph tags found", priority := .medium,
        impact := "Poor social media sharing appearance",
        recommendation := some "Add og:title, og:description, og:image, and og:url for better social sharing",
        actionable := true, checkName := "Open Graph Tags", status := .warning }],
     [{ name := "Open Graph Tags", status := .warning,
        description := "Check for social media meta tags",
        result := "No Open Graph tags found",
        impact := "Poor social media sharing appearance",
        recommendation := some "Add og:title, og:description, og:image, and og:url for better social sharing" }])
  else if ogCount < 4 then
    ([{ type := .warning, category := "meta",
        message := s!"Incomplete Open Graph tags ({ogCount}/4 found)",
        priority := .medium,
        impact := "Incomplete social media optimization",
        recommendation := some "Add missing Open Graph tags for complete social media optimization",
        actionable := true, checkName := "Open Graph Tags", status := .warning }],
     [{ name := "Open Graph Tags", status := .warning,
        description := "Check for social media meta tags",
        result := s!"{ogCount}/4 Open Graph tags found",
        impact := "Incomplete social media optimization",
        recommendation := some "Add missing Open Graph tags for complete social media optimization" }])
  else
    ([{ type := .success, category := "meta",
        message := "Complete Open Graph tags found", priority := .low,
        impact := "Optimized for social media sharing",
        actionable := false, checkName := "Open Graph Tags", status := .passed }],
     [{ name := "Open Graph Tags", status := .passed,
        description := "Check for social media meta tags",
        result := "Complete Open Graph tags found",
        impact := "Optimized for social media sharing" }])

/-- The technical module's scoring fold: Error 20/12/6, Warning 10/6/3,
    Info 1, Success 0; clamp applied by `analyzePage`. -/
def calcScore (issues : List TechnicalSEOIssue) : Int :=
  issues.foldl
    (fun score issue =>
      match issue.type with
      | .error =>
        score - (match issue.priority with
                 | .high => 20 | .medium => 12 | .low => 6)
      | .warning =>
        score - (match issue.priority with
                 | .high => 10 | .medium => 6 | .low => 3)
      | .info => score - 1
      | .success => score)
    100

/-- Metrics block of the technical report. -/
structure TechnicalMetrics where
  titleLength : Nat := 0
  descriptionLength : Nat := 0
  h1Count : Nat := 0
  canonicalPresent : Bool := false
  robotsMetaPresent : Bool := false
  structuredDataCount : Nat := 0
  httpsEnabled : Bool := false
  responseCode : Nat := 0
  redirectCount : Nat := 0
  xmlSitemapDetected : Bool := false
  robotsTxtAccessible : Bool := false
  hreflangCount : Nat := 0
  openGraphCount : Nat := 0
deriving DecidableEq, Repr

/-- `TechnicalSEOResult` (timestamp omitted). -/
structure TechnicalSEOResult where
  url : String
  score : Int
  issues : List TechnicalSEOIssue
  actionableItems : List TechnicalSEOIssue
  allChecks : List CheckRecord
  metrics : TechnicalMetrics
deriving DecidableEq, Repr

/-- Catch-branch report of the technical `analyzePage`. -/
def errorResult (url msg : String) : TechnicalSEOResult :=
  let issues : List TechnicalSEOIssue :=
    [{ type := .error, category := "indexability",
       message := "Technical analysis failed: " ++ msg, priority := .high,
       impact := "Unable to perform technical SEO analysis",
       recommendation := some "Check if the URL is correct and accessible",
       actionable := true, checkName := "Page Analysis", status := .failed }]
  { url := url, score := 0, issues := issues,
    actionableItems := issues.filter (fun i => i.actionable),
    allChecks := [{ name := "Page Analysis", status := .failed,
                    description := "Analyze page for technical SEO factors",
                    result := "Analysis failed",
                    impact := "Unable to perform technical SEO analysis",
                    recommendation := some "Check if the URL is correct and accessible" }],
    metrics := {} }

/-- `TechnicalSEOAnalyzer.analyzePage`. -/
def analyzePage (E : UrlEnv) (fetch : Option PageFetch) (url : String) :
    TechnicalSEOResult :=
  let url' := normalizeUrl url
  match E.parse url' with
  | none => errorResult url' "Invalid URL"
  | some _ =>
    match fetch with
    | none => errorResult url'
        "All proxy attempts failed. The website may be blocking requests or temporarily unavailable."
    | some pf =>
      let d := pf.doc
      let p1 := analyzeIndexability d url' pf.status
      let p2 := analyzeCanonicalization E d url'
      let p3 := analyzeMetaTags d
      let p4 := analyzeHeaders d
      let p5 := analyzeStructuredData d
      let p6 := analyzeOpenGraph d
      let issues := p1.1 ++ p2.1 ++ p3.1 ++ p4.1 ++ p5.1 ++ p6.1
      let allChecks := p1.2 ++ p2.2 ++ p3.2 ++ p4.2 ++ p5.2 ++ p6.2
      { url := url',
        score := clampScore (calcScore issues),
        issues := issues,
        actionableItems := issues.filter (fun i => i.actionable),
        allChecks := allChecks,
        metrics :=
          { titleLength := (d.title.getD "").length
          , descriptionLength := ((d.descriptionTag.getD none).getD "").length
          , h1Count := d.h1Texts.length
          , canonicalPresent := d.canonical.isSome
          , robotsMetaPresent := d.robotsMeta.isSome
          , structuredDataCount := d.ldScripts.length
          , httpsEnabled := jsStartsWith url' "https://"
          , responseCode := pf.status
          , redirectCount := if pf.status ≥ 300 && pf.status < 400 then 1 else 0
          , xmlSitemapDetected := d.hasSitemapLink
          , robotsTxtAccessible := false
          , hreflangCount := d.hreflangCount
          , openGraphCount := d.ogTagCount } }

end Tech

/-! ## CSV primitives (shared by both quick-wins exporters)

A data cell is wrapped in double quotes with embedded quotes doubled
(`cell.replace(/"/g, '""')`); rendering and the standard CSV reader are
modelled at character level so the round-trip can be proved. -/

/-- The double-quote character. -/
def dQuote : Char := '"'

/-- Double every embedded quote of a cell (`replace(/"/g, '""')`). -/
def csvEscapeChars (s : List Char) : List Char :=
  s.flatMap (fun c => if c = dQuote then [dQuote, dQuote] else [c])

/-- Quoted cell, character level. -/
def csvCellChars (s : List Char) : List Char :=
  [dQuote] ++ csvEscapeChars s ++ [dQuote]

/-- A full data row: quoted cells joined by commas, character level. -/
def csvRowChars : List String → List Char
  | [] => []
  | [c] => csvCellChars c.data
  | c :: rest => csvCellChars c.data ++ ',' :: csvRowChars rest

/-- One rendered data row (`row.map(cell => `"..."`).join(',')`). -/
def csvRow (cells : List String) : String := String.mk (csvRowChars cells)

/-- Standard CSV reader, quoted-field body: consume up to the closing quote,
    un-doubling embedded quote pairs; returns the field and rest of input. -/
def csvReadBody : List Char → Option (List Char × List Char)
  | [] => none
  | c :: cs =>
    if c = dQuote then
      match cs with
      | [] => some ([], [])
      | d :: ds =>
        if d = dQuote then (csvReadBody ds).map (fun p => (dQuote :: p.1, p.2))
        else some ([], d :: ds)
    else (csvReadBody cs).map (fun p => (c :: p.1, p.2))

/-- Standard CSV reader, one quoted field (must start with a quote). -/
def csvReadField (l : List Char) : Option (List Char × List Char) :=
  match l with
  | [] => none
  | c :: cs => if c = dQuote then csvReadBody cs else none

/-- Standard CSV reader, one row of quoted fields (fuel = input length). -/
def csvReadRowAux : Nat → List Char → Option (List String)
  | 0, _ => none
  | n + 1, l =>
    match csvReadField l with
    | none => none
    | some (f, rest) =>
      match rest with
      | [] => some [String.mk f]
      | c :: more =>
        if c = ',' then (csvReadRowAux n more).map (String.mk f :: ·)
        else none

/-- Standard CSV reader for one row. -/
def csvReadRow (l : List Char) : Option (List String) :=
  csvReadRowAux (l.length + 1) l

/-! ## Quick-wins module, basic variant (`quickWinsAnalyzer.ts`) -/

namespace QW

/-- `QuickWin` of `quickWinsAnalyzer.ts` (impact reuses the high/medium/low
    scale; `priority` is the 1–10 rank). -/
structure QuickWin where
  category : String
  issue : String
  impact : Priority
  effort : Effort
  recommendation : String
  element : Option String := none
  priority : Nat
deriving DecidableEq, Repr

/-- Summary block. -/
structure Summary where
  easyWins : Nat := 0
  mediumWins : Nat := 0
  hardWins : Nat := 0
  highImpact : Nat := 0
  mediumImpact : Nat := 0
  lowImpact : Nat := 0
deriving DecidableEq, Repr

/-- `QuickWinsResult` (timestamp kept as an opaque string for the CSV
    header; `toLocaleDateString` is a locale built-in abstracted to it). -/
structure QuickWinsResult where
  url : String
  overallScore : Int
  quickWins : List QuickWin
  summary : Summary
  timestamp : String := ""
deriving DecidableEq, Repr

/-- The unsorted quick-win list produced by the thirteen inline checks of
    `analyzeQuickWins`, in source emission order. -/
def collectWins (d : Doc) (url' : String) (loadTime : Nat) : List QuickWin :=
  let titlePart : List QuickWin :=
    match d.title with
    | none =>
      [{ category := "meta", issue := "Missing title tag", impact := .high,
         effort := .easy,
         recommendation := "Add a descriptive title tag (50-60 characters)",
         priority := 10 }]
    | some t =>
      if jsTrim t = "" then
        [{ category := "meta", issue := "Missing title tag", impact := .high,
           effort := .easy,
           recommendation := "Add a descriptive title tag (50-60 characters)",
           priority := 10 }]
      else
        let titleLength := t.length
        if titleLength < 30 || titleLength > 60 then
          [{ category := "meta",
             issue := s!"Title length not optimal ({titleLength} characters)",
             impact := .medium, effort := .easy,
             recommendation :=
               if titleLength < 30 then "Expand title to 50-60 characters"
               else "Shorten title to under 60 characters",
             element := some t, priority := 8 }]
        else []
  let descPart : List QuickWin :=
    let missing : List QuickWin :=
      [{ category := "meta", issue := "Missing meta description", impact := .high,
         effort := .easy,
         recommendation := "Add compelling meta description (150-160 characters)",
         priority := 9 }]
    match d.descriptionTag with
    | none => missing
    | some none => missing
    | some (some c) =>
      if jsTrim c = "" then missing
      else
        let descLength := c.length
        if descLength < 120 || descLength > 160 then
          [{ category := "meta",
             issue := s!"Meta description length not optimal ({descLength} characters)",
             impact := .medium, effort := .easy,
             recommendation :=
               if descLength < 120 then "Expand description to 150-160 characters"
               else "Shorten description to under 160 characters",
             element := some c, priority := 7 }]
        else []
  let httpsPart : List QuickWin :=
    if ¬ jsStartsWith url' "https://" then
      [{ category := "technical", issue := "Not using HTTPS", impact := .high,
         effort := .medium,
         recommendation := "Implement SSL certificate and redirect HTTP to HTTPS",
         priority := 10 }]
    else []
  let viewportPart : List QuickWin :=
    if d.viewport.isNone then
      [{ category := "technical", issue := "Missing viewport meta tag",
         impact := .high, effort := .easy,
         recommendation := "Add <meta name=\"viewport\" content=\"width=device-width, initial-scale=1.0\">",
         priority := 9 }]
    else []
  let canonicalPart : List QuickWin :=
    if d.canonical.isNone then
      [{ category := "technical", issue := "Missing canonical tag",
         impact := .medium, effort := .easy,
         recommendation := "Add canonical tag to prevent duplicate content issues",
         priority := 6 }]
    else []
  let langPart : List QuickWin :=
    if d.htmlLang.isNone then
      [{ category := "technical", issue := "Missing language declaration",
         impact := .medium, effort := .easy,
         recommendation := "Add lang attribute to HTML element (e.g., lang=\"en\")",
         priority := 5 }]
    else []
  let h1Tags := d.h1Texts
  let h1Part : List QuickWin :=
    if h1Tags.length = 0 then
      [{ category := "content", issue := "Missing H1 tag", impact := .high,
         effort := .easy,
         recommendation := "Add exactly one H1 tag per page", priority := 8 }]
    else if h1Tags.length > 1 then
      [{ category := "content",
         issue := s!"Multiple H1 tags ({h1Tags.length} found)",
         impact := .medium, effort := .easy,
         recommendation := "Use only one H1 tag per page",
         element := some (String.intercalate ", " ((h1Tags.map (fun t => jsTrim t)).take 2)),
         priority := 6 }]
    else []
  let imagesWithoutAlt := d.imgs.countP (fun i => attrFalsy i.alt)
  let imagesPart : List QuickWin :=
    if imagesWithoutAlt > 0 then
      [{ category := "content",
         issue := s!"{imagesWithoutAlt} images missing alt text",
         impact := .medium, effort := .easy,
         recommendation := "Add descriptive alt text to all images",
         priority := 7 }]
    else []
  let loadPart : List QuickWin :=
    if loadTime > 3000 then
      [{ category := "performance",
         issue := s!"Slow page load time ({loadTime}ms)", impact := .high,
         effort := .hard,
         recommendation := "Optimize images, minify CSS/JS, enable compression",
         priority := 9 }]
    else if loadTime > 1500 then
      [{ category := "performance",
         issue := s!"Moderate page load time ({loadTime}ms)", impact := .medium,
         effort := .medium,
         recommendation := "Optimize for faster load times (target <1500ms)",
         priority := 5 }]
    else []
  let scriptsPart : List QuickWin :=
    if d.blockingScriptCount > 3 then
      [{ category := "performance",
         issue := s!"{d.blockingScriptCount} render-blocking scripts",
         impact := .medium, effort := .medium,
         recommendation := "Add async or defer attributes to non-critical scripts",
         priority := 4 }]
    else []
  let stylesheetPart : List QuickWin :=
    if d.stylesheetCount > 5 then
      [{ category := "performance", issue := s!"{d.stylesheetCount} CSS files",
         impact := .low, effort := .medium,
         recommendation := "Consider combining CSS files to reduce HTTP requests",
         priority := 3 }]
    else []
  let structuredPart : List QuickWin :=
    if d.ldScripts.length = 0 then
      [{ category := "technical", issue := "No structured data found",
         impact := .medium, effort := .medium,
         recommendation := "Add Schema.org structured data for rich snippets",
         priority := 5 }]
    else []
  let ogPart : List QuickWin :=
    if ¬ d.ogTitle || ¬ d.ogDescription || ¬ d.ogImage then
      [{ category := "meta", issue := "Incomplete Open Graph tags",
         impact := .medium, effort := .easy,
         recommendation := "Add og:title, og:description, and og:image for social sharing",
         priority := 4 }]
    else []
  titlePart ++ descPart ++ httpsPart ++ viewportPart ++ canonicalPart ++ langPart
    ++ h1Part ++ imagesPart ++ loadPart ++ scriptsPart ++ stylesheetPart
    ++ structuredPart ++ ogPart

/-- `quickWins.sort((a, b) => b.priority - a.priority)`: stable descending
    sort by the 1–10 rank. -/
def sortWins (wins : List QuickWin) : List QuickWin :=
  wins.mergeSort (fun a b => b.priority ≤ a.priority)

/-- Summary counters over the win list. -/
def summarize (wins : List QuickWin) : Summary :=
  { easyWins := wins.countP (fun w => w.effort = .easy)
  , mediumWins := wins.countP (fun w => w.effort = .medium)
  , hardWins := wins.countP (fun w => w.effort = .hard)
  , highImpact := wins.countP (fun w => w.impact = .high)
  , mediumImpact := wins.countP (fun w => w.impact = .medium)
  , lowImpact := wins.countP (fun w => w.impact = .low) }

/-- The scoring fold: 100 minus 15/8/3 per win by impact (then clamp). -/
def calcScore (wins : List QuickWin) : Int :=
  wins.foldl
    (fun score win =>
      score - (match win.impact with
               | .high => 15 | .medium => 8 | .low => 3))
    100

/-- `QuickWinsAnalyzer.analyzeQuickWins` (basic variant). -/
def analyzeQuickWins (fetch : Option PageFetch) (url : String) : QuickWinsResult :=
  let url' := normalizeUrl url
  match fetch with
  | none =>
    { url := url', overallScore := 0,
      quickWins :=
        [{ category := "technical", issue := "Analysis failed", impact := .high,
           effort := .easy,
           recommendation := "Check if URL is accessible and try again",
           priority := 10 }],
      summary := { easyWins := 1, highImpact := 1 } }
  | some pf =>
    let quickWins := sortWins (collectWins pf.doc url' pf.loadTime)
    { url := url',
      overallScore := clampScore (calcScore quickWins),
      quickWins := quickWins,
      summary := summarize quickWins }

/-- Display strings of the scales, as serialized to CSV. -/
def impactStr : Priority → String
  | .high => "high" | .medium => "medium" | .low => "low"

/-- Effort scale display. -/
def effortStr : Effort → String
  | .easy => "easy" | .medium => "medium" | .hard => "hard"

/-- The nine CSV columns of the basic exporter. -/
def csvHeaders : List String :=
  ["Priority", "Category", "Issue", "Impact", "Effort", "Recommendation",
   "Element", "Status", "Notes"]

/-- Data cells of one win row (Status / Notes left empty for the client). -/
def csvCells (w : QuickWin) : List String :=
  [toString w.priority, w.category, w.issue, impactStr w.impact,
   effortStr w.effort, w.recommendation, w.element.getD "", "", ""]

/-- The line list of `generateCSVReport`: three header-block lines, a blank
    line, the unquoted header row, then one quoted row per win. -/
def generateCSVLines (r : QuickWinsResult) : List String :=
  [ s!"SEO Quick Wins Report - {r.url}"
  , s!"Generated: {r.timestamp}"
  , s!"Overall Score: {r.overallScore}/100"
  , ""
  , String.intercalate "," csvHeaders ]
  ++ r.quickWins.map (fun w => csvRow (csvCells w))

/-- `QuickWinsAnalyzer.generateCSVReport` (basic variant). -/
def generateCSVReport (r : QuickWinsResult) : String :=
  String.intercalate "\n" (generateCSVLines r)

end QW

/-! ## Page performance module (`pageSpeedAnalyzer.ts`)

The float-valued simulated Core Web Vitals / derived metrics block is not
representable in the embedding and is omitted; the issue catalog, check
records, optimization opportunities and the score (all integer-valued) are
modelled in full. -/

namespace PSpd

/-- `PageSpeedIssue`. -/
structure PageSpeedIssue where
  type : IssueType
  category : String
  message : String
  priority : Priority
  element : Option String := none
  recommendation : Option String := none
  impact : String
  actionable : Bool
  checkName : String
  status : CheckStatus
  timeToFix : String
  expectedImprovement : String
deriving DecidableEq, Repr

/-- `analyzeLoadingPerformance`: load-time banding. -/
def analyzeLoadingPerformance (loadTime : Nat) :
    List PageSpeedIssue × List CheckRecord :=
  if loadTime > 3000 then
    ([{ type := .error, category := "loading",
        message := s!"Slow page load time ({loadTime}ms)", priority := .high,
        impact := "Poor user experience, high bounce rate, negative SEO impact",
        recommendation := some "Optimize images, minify CSS/JS, enable gzip compression, use CDN",
        actionable := true, checkName := "Page Load Time", status := .failed,
        timeToFix := "4-8 hours",
        expectedImprovement := "Reduce load time by 40-60%" }],
     [{ name := "Page Load Time", status := .failed,
        description := "Measure total page load time",
        result := s!"{loadTime}ms (slow)",
        impact := "Poor user experience, high bounce rate",
        recommendation := some "Optimize images, minify resources, enable compression" }])
  else if loadTime > 1500 then
    ([{ type := .warning, category := "loading",
        message := s!"Moderate page load time ({loadTime}ms)", priority := .medium,
        impact := "Room for improvement in user experience",
        recommendation := some "Optimize images and consider lazy loading",
        actionable := true, checkName := "Page Load Time", status := .warning,
        timeToFix := "2-4 hours",
        expectedImprovement := "Reduce load time by 20-30%" }],
     [{ name := "Page Load Time", status := .warning,
        description := "Measure total page load time",
        result := s!"{loadTime}ms (moderate)",
        impact := "Acceptable but could be improved",
        recommendation := some "Consider optimizing for faster load times" }])
  else
    ([{ type := .success, category := "loading",
        message := s!"Good page load time ({loadTime}ms)", priority := .low,
        impact := "Positive user experience",
        actionable := false, checkName := "Page Load Time", status := .passed,
        timeToFix := "N/A", expectedImprovement := "Already optimized" }],
     [{ name := "Page Load Time", status := .passed,
        description := "Measure total page load time",
        result := s!"{loadTime}ms (good)", impact := "Good user experience" }])

/-- `analyzeRenderBlocking`: stylesheet and blocking-script counts. -/
def analyzeRenderBlocking (d : Doc) : List PageSpeedIssue × List CheckRecord :=
  let cssPart : List PageSpeedIssue × List CheckRecord :=
    if d.stylesheetCount > 5 then
      ([{ type := .warning, category := "rendering",
          message := s!"Multiple CSS files ({d.stylesheetCount}) may block rendering",
          priority := .medium,
          impact := "Delayed first paint and content visibility",
          recommendation := some "Combine CSS files, inline critical CSS, use media queries for non-critical CSS",
          actionable := true, checkName := "CSS Files", status := .warning,
          timeToFix := "2-3 hours",
          expectedImprovement := "Faster first contentful paint" }],
       [{ name := "CSS Files", status := .warning,
          description := "Count CSS files that may block rendering",
          result := s!"{d.stylesheetCount} CSS files",
          impact := "Multiple CSS files can slow initial render",
          recommendation := some "Consider combining CSS files" }])
    else
      ([], [{ name := "CSS Files", status := .passed,
              description := "Count CSS files that may block rendering",
              result := s!"{d.stylesheetCount} CSS files (reasonable)",
              impact := "Good CSS file management" }])
  let jsPart : List PageSpeedIssue × List CheckRecord :=
    if d.blockingScriptCount > 3 then
      ([{ type := .warning, category := "rendering",
          message := s!"{d.blockingScriptCount} render-blocking JavaScript files",
          priority := .medium,
          impact := "Delayed page rendering and interactivity",
          recommendation := some "Add async or defer attributes to non-critical scripts",
          actionable := true, checkName := "Render-blocking JS", status := .warning,
          timeToFix := "1-2 hours",
          expectedImprovement := "Faster page rendering" }],
       [{ name := "Render-blocking JS", status := .warning,
          description := "Check for render-blocking JavaScript",
          result := s!"{d.blockingScriptCount} blocking scripts",
          impact := "Scripts block HTML parsing",
          recommendation := some "Add async or defer attributes to non-critical scripts" }])
    else
      ([], [{ name := "Render-blocking JS", status := .passed,
              description := "Check for render-blocking JavaScript",
              result := s!"{d.blockingScriptCount} blocking scripts (acceptable)",
              impact := "Good JavaScript loading strategy" }])
  (cssPart.1 ++ jsPart.1, cssPart.2 ++ jsPart.2)

/-- An image lacks explicit dimensions when both size attributes are falsy
    and neither style dimension is set. -/
def imgNoDimensions (i : Img) : Bool :=
  attrFalsy i.widthAttr && attrFalsy i.heightAttr &&
  ¬ i.styleWidth && ¬ i.styleHeight

/-- `analyzeImages` (performance variant): lazy loading and dimensions. -/
def analyzeImages (d : Doc) : List PageSpeedIssue × List CheckRecord :=
  let images := d.imgs
  let lazyImages := images.countP (fun i => i.loadingLazy)
  let imagesWithoutDimensions := images.countP imgNoDimensions
  let lazyPart : List PageSpeedIssue × List CheckRecord :=
    if images.length > 3 && lazyImages = 0 then
      ([{ type := .warning, category := "optimization",
          message := "Images not using lazy loading", priority := .medium,
          impact := "Slower initial page load, wasted bandwidth",
          recommendation := some "Add loading=\"lazy\" to images below the fold",
          actionable := true, checkName := "Image Lazy Loading", status := .warning,
          timeToFix := "30 minutes",
          expectedImprovement := "Faster initial load, reduced bandwidth usage" }],
       [{ name := "Image Lazy Loading", status := .warning,
          description := "Check if images use lazy loading",
          result := "No lazy loading detected",
          impact := "All images load immediately",
          recommendation := some "Implement lazy loading for below-fold images" }])
    else if lazyImages > 0 then
      ([], [{ name := "Image Lazy Loading", status := .passed,
              description := "Check if images use lazy loading",
              result := s!"{lazyImages} images use lazy loading",
              impact := "Optimized image loading" }])
    else ([], [])
  let dimPart : List PageSpeedIssue × List CheckRecord :=
    if imagesWithoutDimensions > 0 then
      ([{ type := .warning, category := "rendering",
          message := s!"{imagesWithoutDimensions} images without explicit dimensions",
          priority := .medium,
          impact := "Potential layout shifts, poor Core Web Vitals",
          recommendation := some "Add width and height attributes to prevent layout shifts",
          actionable := true, checkName := "Image Dimensions", status := .warning,
          timeToFix := "1 hour",
          expectedImprovement := "Better Cumulative Layout Shift score" }],
       [{ name := "Image Dimensions", status := .warning,
          description := "Check if images have explicit dimensions",
          result := s!"{imagesWithoutDimensions} images without dimensions",
          impact := "May cause layout shifts",
          recommendation := some "Add width and height attributes to images" }])
    else if images.length > 0 then
      ([], [{ name := "Image Dimensions", status := .passed,
              description := "Check if images have explicit dimensions",
              result := "All images have dimensions",
              impact := "Prevents layout shifts" }])
    else ([], [])
  (lazyPart.1 ++ dimPart.1, lazyPart.2 ++ dimPart.2)

/-- `analyzeCompression` over the `content-encoding` header. -/
def analyzeCompression (headers : HeadersModel) :
    List PageSpeedIssue × List CheckRecord :=
  let compressionEnabled :=
    match headers.contentEncoding with
    | none => false
    | some ce =>
      ¬ (ce = "") && (containsSubstr ce "gzip" || containsSubstr ce "br"
        || containsSubstr ce "deflate")
  if !compressionEnabled then
    ([{ type := .warning, category := "optimization",
        message := "Text compression not enabled", priority := .medium,
        impact := "Larger file sizes, slower download times",
        recommendation := some "Enable gzip or Brotli compression on your server",
        actionable := true, checkName := "Text Compression", status := .warning,
        timeToFix := "1 hour",
        expectedImprovement := "Reduce file sizes by 60-80%" }],
     [{ name := "Text Compression", status := .warning,
        description := "Check if text resources are compressed",
        result := "No compression detected",
        impact := "Larger file sizes, slower loading",
        recommendation := some "Enable gzip or Brotli compression" }])
  else
    ([], [{ name := "Text Compression", status := .passed,
            description := "Check if text resources are compressed",
            result := "Compression enabled (" ++ (headers.contentEncoding).getD "" ++ ")",
            impact := "Optimized file transfer" }])

/-- `analyzeCaching` over the four cache-related headers. -/
def analyzeCaching (headers : HeadersModel) :
    List PageSpeedIssue × List CheckRecord :=
  let truthy := fun (o : Option String) =>
    match o with | none => false | some s => ¬ (s = "")
  let hasCacheHeaders := truthy headers.cacheControl || truthy headers.expires
    || truthy headers.etag || truthy headers.lastModified
  if !hasCacheHeaders then
    ([{ type := .warning, category := "optimization",
        message := "Browser caching not configured", priority := .medium,
        impact := "Resources re-downloaded on every visit",
        recommendation := some "Add Cache-Control headers for static resources",
        actionable := true, checkName := "Browser Caching", status := .warning,
        timeToFix := "30 minutes",
        expectedImprovement := "Faster repeat visits" }],
     [{ name := "Browser Caching", status := .warning,
        description := "Check for browser caching headers",
        result := "No cache headers found",
        impact := "Resources downloaded on every visit",
        recommendation := some "Add cache-control headers for static resources" }])
  else
    ([], [{ name := "Browser Caching", status := .passed,
            description := "Check for browser caching headers",
            result := "Cache headers present",
            impact := "Optimized for repeat visits" }])

/-- One optimisation opportunity. -/
structure Opportunity where
  category : String
  title : String
  description : String
  potentialSavings : String
  difficulty : Effort
  priority : Nat
deriving DecidableEq, Repr

/-- `generateOptimizationOpportunities`: one entry per non-passed check of
    interest, sorted by priority descending. -/
def generateOptimizationOpportunities (issues : List PageSpeedIssue) :
    List Opportunity :=
  let hit := fun n => issues.any (fun i => i.checkName = n && i.status ≠ .passed)
  let lazyOpp : List Opportunity :=
    if hit "Image Lazy Loading" then
      [{ category := "Images", title := "Implement Image Lazy Loading",
         description := "Load images only when they\u0027re about to enter the viewport",
         potentialSavings := "20-40% faster initial load",
         difficulty := .easy, priority := 8 }]
    else []
  let compressionOpp : List Opportunity :=
    if hit "Text Compression" then
      [{ category := "Compression", title := "Enable Text Compression",
         description := "Compress HTML, CSS, and JavaScript files with gzip or Brotli",
         potentialSavings := "60-80% file size reduction",
         difficulty := .easy, priority := 9 }]
    else []
  let jsOpp : List Opportunity :=
    if hit "Render-blocking JS" then
      [{ category := "JavaScript", title := "Eliminate Render-blocking JavaScript",
         description := "Use async/defer attributes or inline critical JavaScript",
         potentialSavings := "10-30% faster rendering",
         difficulty := .medium, priority := 7 }]
    else []
  let cssOpp : List Opportunity :=
    if hit "CSS Files" then
      [{ category := "CSS", title := "Optimize CSS Delivery",
         description := "Combine CSS files and inline critical styles",
         potentialSavings := "15-25% faster first paint",
         difficulty := .medium, priority := 6 }]
    else []
  let cachingOpp : List Opportunity :=
    if hit "Browser Caching" then
      [{ category := "Caching", title := "Leverage Browser Caching",
         description := "Set appropriate cache headers for static resources",
         potentialSavings := "50-90% faster repeat visits",
         difficulty := .easy, priority := 8 }]
    else []
  (lazyOpp ++ compressionOpp ++ jsOpp ++ cssOpp ++ cachingOpp).mergeSort
    (fun a b => b.priority ≤ a.priority)

/-- Performance scoring fold: Error 25/15/8, Warning 12/8/4, Info 2. -/
def calcScore (issues : List PageSpeedIssue) : Int :=
  issues.foldl
    (fun score issue =>
      match issue.type with
      | .error =>
        score - (match issue.priority with
                 | .high => 25 | .medium => 15 | .low => 8)
      | .warning =>
        score - (match issue.priority with
                 | .high => 12 | .medium => 8 | .low => 4)
      | .info => score - 2
      | .success => score)
    100

/-- Reduced `PageSpeedResult` (float metrics and vitals omitted). -/
structure PageSpeedResult where
  url : String
  score : Int
  issues : List PageSpeedIssue
  actionableItems : List PageSpeedIssue
  allChecks : List CheckRecord
  optimizationOpportunities : List Opportunity
deriving DecidableEq, Repr

/-- Catch-branch report. -/
def errorResult (url msg : String) : PageSpeedResult :=
  let issues : List PageSpeedIssue :=
    [{ type := .error, category := "loading",
       message := "Performance analysis failed: " ++ msg, priority := .high,
       impact := "Unable to perform performance analysis",
       recommendation := some "Check if the URL is correct and accessible",
       actionable := true, checkName := "Page Analysis", status := .failed,
       timeToFix := "5 minutes",
       expectedImprovement := "Successful performance analysis" }]
  { url := url, score := 0, issues := issues,
    actionableItems := issues.filter (fun i => i.actionable),
    allChecks := [{ name := "Page Analysis", status := .failed,
                    description := "Analyze page performance",
                    result := "Analysis failed",
                    impact := "Unable to perform performance analysis",
                    recommendation := some "Check if the URL is correct and accessible" }],
    optimizationOpportunities := [] }

/-- `PageSpeedAnalyzer.analyzePage`. -/
def analyzePage (fetch : Option PageFetch) (url : String) : PageSpeedResult :=
  let url' := normalizeUrl url
  match fetch with
  | none => errorResult url' "All proxy attempts failed."
  | some pf =>
    let p1 := analyzeLoadingPerformance pf.loadTime
    let p2 := analyzeRenderBlocking pf.doc
    let p3 := analyzeImages pf.doc
    let p4 := analyzeCompression pf.headers
    let p5 := analyzeCaching pf.headers
    let issues := p1.1 ++ p2.1 ++ p3.1 ++ p4.1 ++ p5.1
    { url := url',
      score := clampScore (calcScore issues),
      issues := issues,
      actionableItems := issues.filter (fun i => i.actionable),
      allChecks := p1.2 ++ p2.2 ++ p3.2 ++ p4.2 ++ p5.2,
      optimizationOpportunities := generateOptimizationOpportunities issues }

end PSpd

/-! ## Quick-wins module, extended variant (second class in
`pageSpeedAnalyzer.ts`): only its CSV exporter is claim-relevant; its
`QuickWin` adds `timeToImplement` / `expectedImpact` / `checkName`, and its
summary a `totalTimeEstimate`. -/

namespace QWX

/-- Extended `QuickWin`. -/
structure QuickWin where
  category : String
  issue : String
  impact : Priority
  effort : Effort
  recommendation : String
  element : Option String := none
  priority : Nat
  timeToImplement : String
  expectedImpact : String
  checkName : String
deriving DecidableEq, Repr

/-- Extended result, reduced to the fields the exporter reads. -/
structure QuickWinsResult where
  url : String
  overallScore : Int
  quickWins : List QuickWin
  totalTimeEstimate : String
  timestamp : String := ""
deriving DecidableEq, Repr

/-- The eleven CSV columns of the extended exporter. -/
def csvHeaders : List String :=
  ["Priority", "Category", "Issue", "Impact", "Effort", "Time to Implement",
   "Recommendation", "Expected Impact", "Element", "Status", "Notes"]

/-- Data cells of one extended win row. -/
def csvCells (w : QuickWin) : List String :=
  [toString w.priority, w.category, w.issue, QW.impactStr w.impact,
   QW.effortStr w.effort, w.timeToImplement, w.recommendation,
   w.expectedImpact, w.element.getD "", "", ""]

/-- Line list of the extended `generateCSVReport`: a FOUR-line header block
    (title, date, overall score, total implementation time), a blank line,
    the unquoted header row, then one quoted row per win. -/
def generateCSVLines (r : QuickWinsResult) : List String :=
  [ s!"SEO Quick Wins Report - {r.url}"
  , s!"Generated: {r.timestamp}"
  , s!"Overall Score: {r.overallScore}/100"
  , s!"Total Implementation Time: {r.totalTimeEstimate}"
  , ""
  , String.intercalate "," csvHeaders ]
  ++ r.quickWins.map (fun w => csvRow (csvCells w))

/-- Extended `generateCSVReport`. -/
def generateCSVReport (r : QuickWinsResult) : String :=
  String.intercalate "\n" (generateCSVLines r)

end QWX

/-! ## Blog content module (`blogContentAnalyzer.ts`)

The seed page is abstracted to a `Doc` (only its anchors are read); a
candidate post page is abstracted to `PostDoc`, the projections the per-post
analysis reads (`contentText` is the text of the first matching content
selector, falling back to `body`).  The float-valued keyword-density map is
omitted. -/

namespace Blog

/-- `'thin' | 'adequate' | 'comprehensive'`. -/
inductive Quality where
  | thin | adequate | comprehensive
deriving DecidableEq, Repr

/-- `BlogPost` (keyword densities omitted — machine floats). -/
structure BlogPost where
  url : String
  title : String
  wordCount : Nat
  readingTime : Nat
  hasMetaDescription : Bool
  metaDescriptionLength : Nat
  h1Count : Nat
  h2Count : Nat
  imageCount : Nat
  imagesWithoutAlt : Nat
  internalLinks : Nat
  externalLinks : Nat
  publishDate : Option String := none
  contentQuality : Quality
  duplicateContent : Bool
deriving DecidableEq, Repr

/-- `BlogContentIssue`. -/
structure BlogContentIssue where
  type : IssueType
  category : String
  message : String
  priority : Priority
  affectedPosts : List String
  recommendation : String
deriving DecidableEq, Repr

/-- Summary block. -/
structure Summary where
  thinContent : Nat := 0
  duplicateContent : Nat := 0
  missingMetaDescriptions : Nat := 0
  poorStructure : Nat := 0
  averageWordCount : Nat := 0
  averageReadingTime : Nat := 0
deriving DecidableEq, Repr

/-- `BlogContentResult` (timestamp omitted). -/
structure BlogContentResult where
  url : String
  blogUrl : Option String := none
  totalPosts : Nat
  scannedPosts : Nat
  posts : List BlogPost
  issues : List BlogContentIssue
  summary : Summary
  score : Int
deriving DecidableEq, Repr

/-- The fixed blog URL patterns, lower-cased with the optional-plural
    regexes (`/articles?\//i` etc.) expanded to both alternatives. -/
def blogPatternStrings : List String :=
  ["/blog/", "/article/", "/articles/", "/post/", "/posts/", "/news/",
   "/insight/", "/insights/", "/resource/", "/resources/", "/learn/",
   "/guide/", "/guides/"]

/-- The fixed anchor-text keyword list. -/
def blogKeywords : List String :=
  ["blog", "article", "post", "news", "insight", "resource", "guide", "learn"]

/-- JS `Set.add` over a first-seen-order list. -/
def addUnique (l : List String) (s : String) : List String :=
  if s ∈ l then l else l ++ [s]

/-- The per-link body of `findBlogUrls`: resolve the href (absolute hrefs
    taken verbatim), test URL patterns (case-insensitive) and anchor-text
    keywords, then require the resolved hostname to equal the seed's;
    `none` on any skip or URL-constructor throw. -/
def acceptedUrl (E : UrlEnv) (baseUrl : String) (a : Anchor) : Option String :=
  match a.href with
  | none => none
  | some href =>
    if href = "" then none
    else
      let fullUrlOpt :=
        if jsStartsWith href "http" then some href
        else (E.resolve href baseUrl).map (fun u => u.href)
      match fullUrlOpt with
      | none => none
      | some fullUrl =>
        let matchesBlogPattern :=
          blogPatternStrings.any (fun p => containsSubstr (jsToLower fullUrl) p)
        let linkText := jsToLower a.text
        let textIndicatesBlog :=
          blogKeywords.any (fun k => containsSubstr linkText k)
        if matchesBlogPattern || textIndicatesBlog then
          match E.parse fullUrl, E.parse baseUrl with
          | some linkU, some baseU =>
            if linkU.hostname = baseU.hostname then some fullUrl else none
          | _, _ => none
        else none

/-- `findBlogUrls`: scan the anchors, deduplicate by resolved absolute URL
    in first-seen order (JS `Set`), cap at 20 candidates. -/
def findBlogUrls (E : UrlEnv) (d : Doc) (baseUrl : String) : List String :=
  (d.anchors.foldl
    (fun acc a =>
      match acceptedUrl E baseUrl a with
      | some u => addUnique acc u
      | none => acc)
    []).take 20

/-- Queryable projections of one candidate post page. -/
structure PostDoc where
  titleText : Option String := none
  contentText : String := ""
  metaTag : Option (Option String) := none
  h1Count : Nat := 0
  h2Count : Nat := 0
  imgAlts : List (Option String) := []
  anchors : List Anchor := []
  dateText : Option String := none
deriving DecidableEq, Repr

/-- `jsTrim textContent().split(/\s+/).filter(w => w.length > 0)`. -/
def jsWords (s : String) : List String :=
  (splitPred (fun c => c.isWhitespace) (jsTrim s)).filter (fun w => w ≠ "")

/-- `Math.ceil(wordCount / 200)`. -/
def readingTimeOf (wordCount : Nat) : Nat := (wordCount + 199) / 200

/-- Internal/external link counts of one post page. -/
def postLinkScan (E : UrlEnv) (anchors : List Anchor) (currentDomain : String) :
    Nat × Nat :=
  anchors.foldl
    (fun (st : Nat × Nat) a =>
      match a.href with
      | none => st
      | some h =>
        if h = "" then st
        else if jsStartsWith h "http" then
          match E.parse h with
          | none => st
          | some lu =>
            if lu.hostname = currentDomain then (st.1 + 1, st.2)
            else (st.1, st.2 + 1)
        else if jsStartsWith h "/" then (st.1 + 1, st.2)
        else st)
    (0, 0)

/-- The minimal `BlogPost` returned when fetching or analysing one
    candidate fails (catch branch of `analyzeBlogPost`). -/
def failedPost (url : String) : BlogPost :=
  { url := url, title := "Failed to analyze", wordCount := 0, readingTime := 0,
    hasMetaDescription := false, metaDescriptionLength := 0, h1Count := 0,
    h2Count := 0, imageCount := 0, imagesWithoutAlt := 0, internalLinks := 0,
    externalLinks := 0, contentQuality := .thin, duplicateContent := false }

/-- `analyzeBlogPost`: fetch + parse one candidate (oracle `pf`), compute
    the content metrics; any throw (fetch, or the URL constructor on the
    post URL) degrades to `failedPost`. -/
def analyzeBlogPost (E : UrlEnv) (pf : String → Option PostDoc) (url : String) :
    BlogPost :=
  match pf url with
  | none => failedPost url
  | some d =>
    match E.parse url with
    | none => failedPost url
    | some urlObj =>
      let title :=
        match d.titleText with
        | none => "Untitled"
        | some t => if jsTrim t = "" then "Untitled" else jsTrim t
      let wordCount := (jsWords d.contentText).length
      let hasMetaDescription :=
        match d.metaTag with
        | some (some c) => ¬ (jsTrim c = "")
        | _ => false
      let metaDescriptionLength :=
        match d.metaTag with
        | some (some c) => c.length
        | _ => 0
      let links := postLinkScan E d.anchors urlObj.hostname
      let contentQuality : Quality :=
        if wordCount < 300 then .thin
        else if wordCount < 1000 then .adequate
        else .comprehensive
      { url := url, title := title, wordCount := wordCount,
        readingTime := readingTimeOf wordCount,
        hasMetaDescription := hasMetaDescription,
        metaDescriptionLength := metaDescriptionLength,
        h1Count := d.h1Count, h2Count := d.h2Count,
        imageCount := d.imgAlts.length,
        imagesWithoutAlt := d.imgAlts.countP attrFalsy,
        internalLinks := links.1, externalLinks := links.2,
        publishDate := d.dateText,
        contentQuality := contentQuality, duplicateContent := false }

/-- `Math.round(num / den)` for non-negative operands (`den > 0`). -/
def jsRound (num den : Nat) : Nat := (2 * num + den) / (2 * den)

/-- The four aggregate issue checks over the scanned posts. -/
def blogIssues (posts : List BlogPost) : List BlogContentIssue :=
  let thinContentPosts := posts.filter (fun p => p.contentQuality = .thin)
  let missingMetaPosts := posts.filter (fun p => ¬ p.hasMetaDescription)
  let poorStructurePosts :=
    posts.filter (fun p => p.h1Count ≠ 1 || p.h2Count = 0)
  let imagesWithoutAltPosts := posts.filter (fun p => p.imagesWithoutAlt > 0)
  let thinN := thinContentPosts.length
  let metaN := missingMetaPosts.length
  let poorN := poorStructurePosts.length
  let altPostsN := imagesWithoutAltPosts.length
  let totalMissingAlt :=
    imagesWithoutAltPosts.foldl (fun acc p => acc + p.imagesWithoutAlt) 0
  (if thinN > 0 then
    [{ type := .error, category := "content-quality",
       message := s!"{thinN} posts with thin content (<300 words)",
       priority := .high,
       affectedPosts := thinContentPosts.map (fun p => p.title),
       recommendation := "Expand thin content posts to at least 300-500 words with valuable information" }]
   else []) ++
  (if metaN > 0 then
    [{ type := .error, category := "seo-optimization",
       message := s!"{metaN} posts missing meta descriptions",
       priority := .high,
       affectedPosts := missingMetaPosts.map (fun p => p.title),
       recommendation := "Add compelling meta descriptions (150-160 characters) to all blog posts" }]
   else []) ++
  (if poorN > 0 then
    [{ type := .warning, category := "structure",
       message := s!"{poorN} posts with poor header structure",
       priority := .medium,
       affectedPosts := poorStructurePosts.map (fun p => p.title),
       recommendation := "Ensure each post has exactly one H1 and multiple H2 subheadings" }]
   else []) ++
  (if altPostsN > 0 then
    [{ type := .warning, category := "seo-optimization",
       message := s!"{totalMissingAlt} images missing alt text across {altPostsN} posts",
       priority := .medium,
       affectedPosts := imagesWithoutAltPosts.map (fun p => p.title),
       recommendation := "Add descriptive alt text to all images for better accessibility and SEO" }]
   else [])

/-- Summary statistics over the scanned posts. -/
def blogSummary (posts : List BlogPost) : Summary :=
  let totalWords := posts.foldl (fun acc p => acc + p.wordCount) 0
  let totalReadingTime := posts.foldl (fun acc p => acc + p.readingTime) 0
  { thinContent := (posts.filter (fun p => p.contentQuality = .thin)).length
  , duplicateContent := 0
  , missingMetaDescriptions := (posts.filter (fun p => ¬ p.hasMetaDescription)).length
  , poorStructure := (posts.filter (fun p => p.h1Count ≠ 1 || p.h2Count = 0)).length
  , averageWordCount :=
      if posts.length > 0 then jsRound totalWords posts.length else 0
  , averageReadingTime :=
      if posts.length > 0 then jsRound totalReadingTime posts.length else 0 }

/-- The blog module's score before the clamp: `100` minus `10×` the thin
    posts, `8×` the posts missing meta descriptions, `5×` the posts with
    poor structure, and `min(3×` the posts with missing alts`, 20)` — a
    count-based deduction, not a per-issue `(kind, priority)` table. -/
def calcScore (posts : List BlogPost) : Int :=
  100
    - ((posts.filter (fun p => p.contentQuality = .thin)).length : Int) * 10
    - ((posts.filter (fun p => ¬ p.hasMetaDescription)).length : Int) * 8
    - ((posts.filter (fun p => p.h1Count ≠ 1 || p.h2Count = 0)).length : Int) * 5
    - min (((posts.filter (fun p => p.imagesWithoutAlt > 0)).length : Int) * 3) 20

/-- Catch-branch result of `analyzeContent`. -/
def errorResult (url : String) : BlogContentResult :=
  { url := url, totalPosts := 0, scannedPosts := 0, posts := [],
    issues := [{ type := .error, category := "performance",
                 message := "Failed to analyze blog content", priority := .high,
                 affectedPosts := [],
                 recommendation := "Check if the website is accessible and has a blog section" }],
    summary := {}, score := 0 }

/-- The fixed result returned when URL discovery finds no candidates. -/
def noPostsResult (url : String) : BlogContentResult :=
  { url := url, totalPosts := 0, scannedPosts := 0, posts := [],
    issues := [{ type := .warning, category := "structure",
                 message := "No blog posts found", priority := .medium,
                 affectedPosts := [],
                 recommendation := "Ensure blog posts are properly linked from the main site" }],
    summary := {}, score := 50 }

/-- `BlogContentAnalyzer.analyzeContent`: fetch the seed, discover candidate
    URLs, analyse at most 15 of them, aggregate issues / summary / score. -/
def analyzeContent (E : UrlEnv) (seedFetch : Option Doc)
    (pf : String → Option PostDoc) (url : String) : BlogContentResult :=
  let url' := normalizeUrl url
  match seedFetch with
  | none => errorResult url'
  | some doc =>
    let blogUrls := findBlogUrls E doc url'
    if blogUrls.length = 0 then noPostsResult url'
    else
      let maxPosts := min blogUrls.length 15
      let posts := (blogUrls.take maxPosts).map (analyzeBlogPost E pf)
      { url := url',
        blogUrl := blogUrls.head?,
        totalPosts := blogUrls.length,
        scannedPosts := posts.length,
        posts := posts,
        issues := blogIssues posts,
        summary := blogSummary posts,
        score := clampScore (calcScore posts) }

end Blog

/-! ## Site crawlability module (`siteAnalyzer.ts`)

`fetchWithProxy` here returns `{content, status}`; it and `DOMParser` are
abstracted by `SiteNet`.  The three sub-analyzers contain their own
try/catch blocks, so a failing fetch degrades into per-check issues; only a
URL-constructor throw outside those try blocks reaches the `analyzeSite`
catch, which appends its failure issue to whatever was accumulated. -/

namespace Site

/-- `SiteAnalysisIssue`. -/
structure SiteAnalysisIssue where
  type : IssueType
  category : String
  message : String
  priority : Priority
  element : Option String := none
  recommendation : Option String := none
  impact : String
  actionable : Bool
  checkName : String
  status : CheckStatus
deriving DecidableEq, Repr

/-- Fetch / parse oracle of the site module. -/
structure SiteNet where
  fetch : String → Option (String × Nat)
  docOf : String → Doc

/-- `robotsData` record. -/
structure RobotsData where
  fileExists : Bool := false
  accessible : Bool := false
  valid : Bool := false
  directives : List String := []
  sitemaps : List String := []
deriving DecidableEq, Repr

/-- One robots.txt line: split at `:`, directive before, value after
    (re-joined on `:`), trimmed. -/
def robotsLineStep (st : List String × List String × Bool × Bool) (line : String) :
    List String × List String × Bool × Bool :=
  let parts := splitOnStr line ":"
  let directive := parts.headD ""
  let value := jsTrim (String.intercalate ":" parts.tail)
  let (directives, sitemaps, hasUserAgent, hasDisallow) := st
  if jsToLower directive = "user-agent" then
    (directives ++ ["User-agent: " ++ value], sitemaps, true, hasDisallow)
  else if jsToLower directive = "disallow" then
    (directives ++ ["Disallow: " ++ value], sitemaps, hasUserAgent, true)
  else if jsToLower directive = "allow" then
    (directives ++ ["Allow: " ++ value], sitemaps, hasUserAgent, hasDisallow)
  else if jsToLower directive = "sitemap" then
    (directives, sitemaps ++ [value], hasUserAgent, hasDisallow)
  else if jsToLower directive = "crawl-delay" then
    (directives ++ ["Crawl-delay: " ++ value], sitemaps, hasUserAgent, hasDisallow)
  else st

/-- `analyzeRobotsTxt`; `.error` = the `/robots.txt` URL constructor threw
    (outside the function's try block, so it propagates). -/
def analyzeRobotsTxt (E : UrlEnv) (net : SiteNet) (baseUrl : String) :
    Except Unit (List SiteAnalysisIssue × List CheckRecord × RobotsData) :=
  match E.resolve "/robots.txt" baseUrl with
  | none => .error ()
  | some robotsUrl =>
    match net.fetch robotsUrl.href with
    | none =>
      .ok ([{ type := .error, category := "robots",
              message := "Failed to fetch robots.txt", priority := .high,
              impact := "Cannot verify crawling directives",
              recommendation := some "Check server configuration and ensure robots.txt is accessible",
              actionable := true, checkName := "Robots.txt File", status := .failed }],
           [{ name := "Robots.txt File", status := .failed,
              description := "Check for robots.txt file existence",
              result := "Failed to fetch robots.txt",
              impact := "Cannot verify crawling directives",
              recommendation := some "Check server configuration and accessibility" }],
           {})
    | some (content, status) =>
      if status = 404 then
        .ok ([{ type := .warning, category := "robots",
                message := "robots.txt file not found", priority := .medium,
                impact := "Search engines may crawl unintended pages or waste crawl budget",
                recommendation := some "Create a robots.txt file to guide search engine crawling",
                actionable := true, checkName := "Robots.txt File", status := .warning }],
             [{ name := "Robots.txt File", status := .warning,
                description := "Check for robots.txt file existence",
                result := "File not found (404)",
                impact := "Search engines may crawl unintended pages",
                recommendation := some "Create a robots.txt file to guide search engine crawling" }],
             {})
      else if status ≠ 200 then
        .ok ([{ type := .error, category := "robots",
                message := s!"robots.txt returns HTTP {status} error", priority := .high,
                impact := "Search engines cannot access crawling instructions",
                recommendation := some "Fix server configuration to serve robots.txt with 200 status",
                actionable := true, checkName := "Robots.txt File", status := .failed }],
             [{ name := "Robots.txt File", status := .failed,
                description := "Check for robots.txt file accessibility",
                result := s!"HTTP {status} error",
                impact := "Robots.txt cannot be accessed by search engines",
                recommendation := some "Fix server configuration to serve robots.txt properly" }],
             { fileExists := true })
      else
        let lines := ((splitOnStr content "\n").map (fun l => jsTrim l)).filter
          (fun l => l ≠ "" && ¬ jsStartsWith l "#")
        let (directives, sitemaps, hasUserAgent, _) :=
          lines.foldl robotsLineStep ([], [], false, false)
        let uaPart : List SiteAnalysisIssue × List CheckRecord :=
          if ¬ hasUserAgent then
            ([{ type := .warning, category := "robots",
                message := "robots.txt missing User-agent directive",
                priority := .medium,
                impact := "Crawling directives may not be applied correctly",
                recommendation := some "Add \"User-agent: *\" or specific user-agent directives",
                actionable := true, checkName := "Robots.txt Syntax", status := .warning }],
             [{ name := "Robots.txt Syntax", status := .warning,
                description := "Check robots.txt syntax and structure",
                result := "Missing User-agent directive",
                impact := "Robots.txt may not work as expected",
                recommendation := some "Add User-agent directive to robots.txt" }])
          else ([], [])
        let smPart : List SiteAnalysisIssue × List CheckRecord :=
          if sitemaps.length = 0 then
            ([{ type := .info, category := "robots",
                message := "No sitemap references in robots.txt", priority := .low,
                impact := "Missing opportunity to help search engines discover sitemap",
                recommendation := some "Add \"Sitemap: [URL]\" entries to robots.txt",
                actionable := true, checkName := "Robots.txt Sitemap", status := .info }],
             [{ name := "Robots.txt Sitemap", status := .info,
                description := "Check for sitemap references in robots.txt",
                result := "No sitemap references found",
                impact := "Missing opportunity to guide search engines",
                recommendation := some "Add sitemap references to robots.txt" }])
          else
            ([], [{ name := "Robots.txt Sitemap", status := .passed,
                    description := "Check for sitemap references in robots.txt",
                    result := s!"{sitemaps.length} sitemap(s) referenced",
                    impact := "Good sitemap discovery" }])
        .ok (uaPart.1 ++ smPart.1,
             uaPart.2 ++ smPart.2 ++
               [{ name := "Robots.txt File", status := .passed,
                  description := "Check for robots.txt file existence",
                  result := "File exists and accessible",
                  impact := "Proper crawling guidance for search engines" }],
             { fileExists := true, accessible := true, valid := hasUserAgent,
               directives := directives, sitemaps := sitemaps })

/-- `sitemapData` record. -/
structure SitemapData where
  fileExists : Bool := false
  accessible : Bool := false
  valid : Bool := false
  urlCount : Nat := 0
deriving DecidableEq, Repr

/-- Loop state of the sitemap scan. -/
structure SitemapState where
  fileExists : Bool := false
  accessible : Bool := false
  valid : Bool := false
  urlCount : Nat := 0
  issues : List SiteAnalysisIssue := []
  checks : List CheckRecord := []
deriving DecidableEq, Repr

/-- The candidate-sitemap loop: fetch failures continue; a 200 with a
    `<urlset`/`<sitemapindex` root counts its `<url>` entries and breaks;
    a 200 with other content records an invalid-sitemap warning and
    continues. -/
def sitemapLoop (net : SiteNet) : List String → SitemapState → SitemapState
  | [], st => st
  | sitemapUrl :: rest, st =>
    match net.fetch sitemapUrl with
    | none => sitemapLoop net rest st
    | some (content, status) =>
      if status = 200 then
        let st1 := { st with fileExists := true, accessible := true }
        if containsSubstr content "<urlset" || containsSubstr content "<sitemapindex" then
          let urlMatches := (splitOnStr content "<url>").length - 1
          let newCount := st1.urlCount + urlMatches
          { st1 with
            valid := true,
            urlCount := newCount,
            checks := st1.checks ++
              [{ name := "XML Sitemap", status := .passed,
                 description := "Check for XML sitemap existence and validity",
                 result := s!"Valid sitemap found with {newCount} URLs",
                 impact := "Good site structure discovery for search engines" }] }
        else
          sitemapLoop net rest
            { st1 with
              issues := st1.issues ++
                [{ type := .warning, category := "sitemap",
                   message := "Sitemap found but appears to be invalid XML",
                   priority := .medium,
                   impact := "Search engines may not process sitemap correctly",
                   recommendation := some "Validate sitemap XML structure and ensure it follows sitemap protocol",
                   actionable := true, checkName := "XML Sitemap", status := .warning }],
              checks := st1.checks ++
                [{ name := "XML Sitemap", status := .warning,
                   description := "Check for XML sitemap existence and validity",
                   result := "Sitemap found but may be invalid",
                   impact := "Sitemap may not be processed correctly",
                   recommendation := some "Ensure sitemap follows XML sitemap protocol" }] }
      else sitemapLoop net rest st

/-- `analyzeSitemap`; `.error` = a well-known-path URL constructor threw
    (outside the loop's try block). -/
def analyzeSitemap (E : UrlEnv) (net : SiteNet) (baseUrl : String)
    (sitemapUrls : List String) :
    Except Unit (List SiteAnalysisIssue × List CheckRecord × SitemapData) :=
  let commonSitemapUrls :=
    ["/sitemap.xml", "/sitemap_index.xml", "/sitemap.txt", "/sitemaps.xml"]
  let urlsToCheckOpt : Option (List String) :=
    if sitemapUrls.length > 0 then some sitemapUrls
    else (commonSitemapUrls.mapM (fun p => E.resolve p baseUrl)).map
      (fun l => l.map (fun u => u.href))
  match urlsToCheckOpt with
  | none => .error ()
  | some urlsToCheck =>
    let st := sitemapLoop net urlsToCheck {}
    let tailPart : List SiteAnalysisIssue × List CheckRecord :=
      if ¬ st.fileExists then
        ([{ type := .warning, category := "sitemap",
            message := "No XML sitemap found", priority := .medium,
            impact := "Search engines may have difficulty discovering all pages",
            recommendation := some "Create an XML sitemap and submit it to search engines",
            actionable := true, checkName := "XML Sitemap", status := .warning }],
         [{ name := "XML Sitemap", status := .warning,
            description := "Check for XML sitemap existence and validity",
            result := "No sitemap found",
            impact := "Search engines may have difficulty discovering all pages",
            recommendation := some "Create and submit an XML sitemap" }])
      else ([], [])
    .ok (st.issues ++ tailPart.1, st.checks ++ tailPart.2,
         { fileExists := st.fileExists, accessible := st.accessible,
           valid := st.valid, urlCount := st.urlCount })

/-- `structureData` record. -/
structure StructureData where
  accessible : Bool := false
  internalLinks : Nat := 0
  externalLinks : Nat := 0
  depth : Nat := 0
deriving DecidableEq, Repr

/-- Link scan of the seed page (mailto:/tel: excluded from internal). -/
def structureLinkScan (E : UrlEnv) (anchors : List Anchor) (hostname : String) :
    Nat × Nat :=
  anchors.foldl
    (fun (st : Nat × Nat) a =>
      match a.href with
      | none => st
      | some h =>
        if h = "" then st
        else if jsStartsWith h "http" then
          match E.parse h with
          | none => st
          | some lu =>
            if lu.hostname = hostname then (st.1 + 1, st.2) else (st.1, st.2 + 1)
        else if jsStartsWith h "/" ||
          (¬ containsSubstr h "://" && ¬ jsStartsWith h "#" &&
           ¬ jsStartsWith h "mailto:" && ¬ jsStartsWith h "tel:") then
          (st.1 + 1, st.2)
        else st)
    (0, 0)

/-- `analyzeSiteStructure`: the whole body sits inside one try block, so
    every failure (fetch throw or URL-constructor throw) lands in its own
    catch branch and is converted to data. -/
def analyzeSiteStructure (E : UrlEnv) (net : SiteNet) (url : String) :
    List SiteAnalysisIssue × List CheckRecord × StructureData :=
  let catchBranch : List SiteAnalysisIssue × List CheckRecord × StructureData :=
    ([{ type := .error, category := "crawling",
        message := "Failed to access site for analysis", priority := .high,
        impact := "Cannot analyze site structure and crawlability",
        recommendation := some "Check URL correctness and server accessibility",
        actionable := true, checkName := "Site Accessibility", status := .failed }],
     [{ name := "Site Accessibility", status := .failed,
        description := "Check if main site is accessible",
        result := "Failed to access site",
        impact := "Cannot analyze site structure",
        recommendation := some "Check URL and server accessibility" }],
     {})
  match net.fetch url with
  | none => catchBranch
  | some (content, status) =>
    if status ≠ 200 then
      ([{ type := .error, category := "crawling",
          message := s!"Site returns HTTP {status} error", priority := .high,
          impact := "Site cannot be crawled by search engines",
          recommendation := some "Fix server configuration to return 200 status",
          actionable := true, checkName := "Site Accessibility", status := .failed }],
       [{ name := "Site Accessibility", status := .failed,
          description := "Check if main site is accessible",
          result := s!"HTTP {status} error",
          impact := "Site cannot be crawled",
          recommendation := some "Fix server issues to ensure site accessibility" }],
       {})
    else
      match E.parse url with
      | none => catchBranch
      | some baseUrl =>
        let doc := net.docOf content
        let links := structureLinkScan E doc.anchors baseUrl.hostname
        let navPart : List SiteAnalysisIssue × List CheckRecord :=
          if ¬ doc.hasNav && ¬ doc.hasNavRoleOrMenu then
            ([{ type := .warning, category := "structure",
                message := "No clear navigation structure found", priority := .medium,
                impact := "Poor user experience and search engine crawlability",
                recommendation := some "Add clear navigation structure using nav element or ARIA roles",
                actionable := true, checkName := "Navigation Structure", status := .warning }],
             [{ name := "Navigation Structure", status := .warning,
                description := "Check for clear navigation structure",
                result := "No clear navigation found",
                impact := "Poor user experience and crawlability",
                recommendation := some "Add clear navigation structure with nav element" }])
          else
            ([], [{ name := "Navigation Structure", status := .passed,
                    description := "Check for clear navigation structure",
                    result := "Navigation structure found",
                    impact := "Good site structure for users and search engines" }])
        let breadcrumbPart : List SiteAnalysisIssue × List CheckRecord :=
          if ¬ doc.hasBreadcrumbs && links.1 > 10 then
            ([{ type := .info, category := "structure",
                message := "No breadcrumb navigation found", priority := .low,
                impact := "Missing navigation aid for users and search engines",
                recommendation := some "Consider adding breadcrumb navigation for better user experience",
                actionable := true, checkName := "Breadcrumb Navigation", status := .info }],
             [{ name := "Breadcrumb Navigation", status := .info,
                description := "Check for breadcrumb navigation",
                result := "No breadcrumbs found",
                impact := "Missing navigation aid for complex sites",
                recommendation := some "Consider adding breadcrumb navigation for better UX" }])
          else ([], [])
        (navPart.1 ++ breadcrumbPart.1,
         navPart.2 ++ breadcrumbPart.2 ++
           [{ name := "Site Accessibility", status := .passed,
              description := "Check if main site is accessible",
              result := "Site accessible",
              impact := "Site can be properly crawled" }],
         { accessible := true, internalLinks := links.1,
           externalLinks := links.2, depth := 1 })

/-- Crawlability block of the report. -/
structure Crawlability where
  robotsTxtExists : Bool := false
  robotsTxtAccessible : Bool := false
  robotsTxtValid : Bool := false
  sitemapExists : Bool := false
  sitemapAccessible : Bool := false
  sitemapValid : Bool := false
  crawlDirectives : List String := []
  blockedResources : List String := []
deriving DecidableEq, Repr

/-- Indexability block. -/
structure Indexability where
  indexablePages : Nat := 0
  blockedPages : Nat := 0
  redirects : Nat := 0
  errors : Nat := 0
  canonicalIssues : Nat := 0
deriving DecidableEq, Repr

/-- Site-structure block. -/
structure SiteStructure where
  depth : Nat := 0
  internalLinks : Nat := 0
  externalLinks : Nat := 0
  brokenLinks : Nat := 0
  orphanPages : Nat := 0
deriving DecidableEq, Repr

/-- `SiteAnalysisResult` (timestamp omitted). -/
structure SiteAnalysisResult where
  url : String
  score : Int
  issues : List SiteAnalysisIssue
  actionableItems : List SiteAnalysisIssue
  allChecks : List CheckRecord
  crawlability : Crawlability
  indexability : Indexability
  siteStructure : SiteStructure
deriving DecidableEq, Repr

/-- Site scoring fold: Error 20/12/6, Warning 10/6/3, Info 2. -/
def calcScore (issues : List SiteAnalysisIssue) : Int :=
  issues.foldl
    (fun score issue =>
      match issue.type with
      | .error =>
        score - (match issue.priority with
                 | .high => 20 | .medium => 12 | .low => 6)
      | .warning =>
        score - (match issue.priority with
                 | .high => 10 | .medium => 6 | .low => 3)
      | .info => score - 2
      | .success => score)
    100

/-- Catch branch of `analyzeSite`: the failure issue and check are appended
    to whatever the sub-analyzers accumulated before the throw. -/
def catchResult (url : String) (prevIssues : List SiteAnalysisIssue)
    (prevChecks : List CheckRecord) : SiteAnalysisResult :=
  let issues := prevIssues ++
    [{ type := .error, category := "crawling",
       message := "Site analysis failed: Invalid URL", priority := .high,
       impact := "Unable to perform site analysis",
       recommendation := some "Check if the URL is correct and accessible",
       actionable := true, checkName := "Site Analysis", status := .failed }]
  { url := url, score := 0, issues := issues,
    actionableItems := issues.filter (fun i => i.actionable),
    allChecks := prevChecks ++
      [{ name := "Site Analysis", status := .failed,
         description := "Analyze site crawlability and structure",
         result := "Analysis failed",
         impact := "Unable to perform site analysis",
         recommendation := some "Check if the URL is correct and accessible" }],
    crawlability := {},
    indexability := { errors := 1 },
    siteStructure := {} }

/-- `SiteAnalyzer.analyzeSite`. -/
def analyzeSite (E : UrlEnv) (net : SiteNet) (url : String) : SiteAnalysisResult :=
  let url' := normalizeUrl url
  match E.parse url' with
  | none => catchResult url' [] []
  | some urlObj =>
    let baseUrl := urlObj.origin
    match analyzeRobotsTxt E net baseUrl with
    | .error _ => catchResult url' [] []
    | .ok (rIssues, rChecks, robotsData) =>
      match analyzeSitemap E net baseUrl robotsData.sitemaps with
      | .error _ => catchResult url' rIssues rChecks
      | .ok (sIssues, sChecks, sitemapData) =>
        let stPart := analyzeSiteStructure E net url'
        let issues := rIssues ++ sIssues ++ stPart.1
        let allChecks := rChecks ++ sChecks ++ stPart.2.1
        let structureData := stPart.2.2
        { url := url',
          score := clampScore (calcScore issues),
          issues := issues,
          actionableItems := issues.filter (fun i => i.actionable),
          allChecks := allChecks,
          crawlability :=
            { robotsTxtExists := robotsData.fileExists
            , robotsTxtAccessible := robotsData.accessible
            , robotsTxtValid := robotsData.valid
            , sitemapExists := sitemapData.fileExists
            , sitemapAccessible := sitemapData.accessible
            , sitemapValid := sitemapData.valid
            , crawlDirectives := robotsData.directives
            , blockedResources := [] },
          indexability :=
            { indexablePages :=
                if sitemapData.urlCount = 0 then 1 else sitemapData.urlCount
            , blockedPages := 0, redirects := 0
            , errors := issues.countP (fun i => i.type = .error)
            , canonicalIssues := 0 },
          siteStructure :=
            { depth := structureData.depth
            , internalLinks := structureData.internalLinks
            , externalLinks := structureData.externalLinks
            , brokenLinks := 0, orphanPages := 0 } }

end Site

/-! ## Specification-side definitions

Deduction tables and the discovery keep-condition written from the spec's
wording, to be compared against the embedded code. -/

/-- The single-page SEO module's deduction table keyed by `(kind, priority)`:
    Error 15/10/5, Warning 8/5/2, Info 1, Success 0. -/
def seoDeduction : IssueType → Priority → Int
  | .error, .high => 15 | .error, .medium => 10 | .error, .low => 5
  | .warning, .high => 8 | .warning, .medium => 5 | .warning, .low => 2
  | .info, _ => 1
  | .success, _ => 0

/-- The technical module's deduction table: Error 20/12/6, Warning 10/6/3,
    Info 1, Success 0. -/
def techDeduction : IssueType → Priority → Int
  | .error, .high => 20 | .error, .medium => 12 | .error, .low => 6
  | .warning, .high => 10 | .warning, .medium => 6 | .warning, .low => 3
  | .info, _ => 1
  | .success, _ => 0

/-- The quick-wins module's per-win deduction, keyed by impact alone:
    high 15, medium 8, low 3. -/
def qwDeduction : Priority → Int
  | .high => 15 | .medium => 8 | .low => 3

/-- The pagespeed module's deduction table: Error 25/15/8, Warning 12/8/4,
    Info 2, Success 0. -/
def pspdDeduction : IssueType → Priority → Int
  | .error, .high => 25 | .error, .medium => 15 | .error, .low => 8
  | .warning, .high => 12 | .warning, .medium => 8 | .warning, .low => 4
  | .info, _ => 2
  | .success, _ => 0

/-- The spec's keep-condition for URL discovery: anchor `a` contributes the
    absolute URL `u` when its href resolves to `u` (absolute hrefs taken
    verbatim), `u` matches a blog path pattern or the anchor text contains a
    keyword, and `u`'s hostname equals the seed's hostname. -/
def specKeeps (E : UrlEnv) (baseUrl : String) (a : Anchor) (u : String) : Prop :=
  ∃ h, a.href = some h ∧ h ≠ "" ∧
    (if jsStartsWith h "http" then u = h
     else (E.resolve h baseUrl).map (fun x => x.href) = some u) ∧
    (Blog.blogPatternStrings.any (fun p => containsSubstr (jsToLower u) p) = true ∨
     Blog.blogKeywords.any (fun k => containsSubstr (jsToLower a.text) k) = true) ∧
    ∃ lu bu, E.parse u = some lu ∧ E.parse baseUrl = some bu ∧
      lu.hostname = bu.hostname

/-! ## Concrete test environments (used by witnesses and counterexamples) -/

/-- A small concrete URL parser covering `http(s)://host/path` strings. -/
def toyParse (s : String) : Option UrlParts :=
  if jsStartsWith s "https://" then
    let host := (splitOnStr (jsDrop s 8) "/").headD ""
    if host = "" then none
    else some { href := s, hostname := host, origin := "https://" ++ host }
  else if jsStartsWith s "http://" then
    let host := (splitOnStr (jsDrop s 7) "/").headD ""
    if host = "" then none
    else some { href := s, hostname := host, origin := "http://" ++ host }
  else none

/-- Concrete relative-URL resolution against the base origin. -/
def toyResolve (href base : String) : Option UrlParts :=
  if jsStartsWith href "http" then toyParse href
  else
    match toyParse base with
    | none => none
    | some b =>
      if jsStartsWith href "/" then toyParse (b.origin ++ href)
      else toyParse (b.origin ++ "/" ++ href)

/-- Concrete URL environment. -/
def toyEnv : UrlEnv := ⟨toyParse, toyResolve⟩

/-- URL environment in which every constructor call throws. -/
def failEnv : UrlEnv := ⟨fun _ => none, fun _ _ => none⟩

/-- Seed page of the spec's mini-crawl example: links `/blog/post-1`,
    `/about`, `https://other.com/blog/x` on host `example.com`. -/
def crawlSeedDoc : Doc :=
  { anchors :=
      [ { href := some "/blog/post-1", text := "First" }
      , { href := some "/about", text := "About us" }
      , { href := some "https://other.com/blog/x", text := "Other" } ] }

/-- A seed page with no hyperlinks at all. -/
def emptySeedDoc : Doc := {}

/-- Network scenario: direct fetch throws, first relay (allorigins) throws,
    second relay returns a 200 with a raw body. -/
def relayNet : Net :=
  ⟨fun u t =>
    if u = "https://x.com" && t = 5000 then (7, none)
    else if u = "https://api.allorigins.win/get?url=" ++ encodeURIComponent "https://x.com"
            && t = 15000 then (11, none)
    else if u = "https://corsproxy.io/?" ++ encodeURIComponent "https://x.com"
            && t = 15000 then (13, some { body := "BODY", status := 200 })
    else (0, none)⟩

/-- Network in which every attempt throws. -/
def downNet : Net := ⟨fun _ _ => (3, none)⟩

/-- Site-module oracle in which every fetch throws (retrieval exhausted). -/
def downSiteNet : Site.SiteNet := ⟨fun _ => none, fun _ => {}⟩

/-- A thin blog post (all other aggregate checks clean) used to separate
    the blog module's count-based score from any per-issue table. -/
def thinPost (u : String) : Blog.BlogPost :=
  { url := u, title := "t", wordCount := 100, readingTime := 1,
    hasMetaDescription := true, metaDescriptionLength := 150, h1Count := 1,
    h2Count := 2, imageCount := 0, imagesWithoutAlt := 0, internalLinks := 0,
    externalLinks := 0, contentQuality := .thin, duplicateContent := false }

/-- A document whose single image has no `alt` attribute. -/
def missingAltDoc : Doc := { imgs := [{ alt := none, src := "a/b.png" }] }

/-- A document carrying only the `og:url` Open Graph tag. -/
def ogUrlOnlyDoc : Doc := { ogUrl := true }

/-- A quick-wins result with one win whose recommendation holds a comma
    and an embedded double quote. -/
def sampleQWResult : QW.QuickWinsResult :=
  { url := "https://example.com", overallScore := 85,
    quickWins :=
      [{ category := "meta", issue := "Missing title tag", impact := .high,
         effort := .easy, recommendation := "Add a title, \"quoted\" here",
         priority := 10 }],
    summary := { easyWins := 1, highImpact := 1 }, timestamp := "2026-01-01" }

/-- The matching extended-exporter result. -/
def sampleQWXResult : QWX.QuickWinsResult :=
  { url := "https://example.com", overallScore := 85,
    quickWins :=
      [{ category := "meta", issue := "Missing title tag", impact := .high,
         effort := .easy, recommendation := "Add a title, \"quoted\" here",
         priority := 10, timeToImplement := "5 minutes",
         expectedImpact := "Better CTR", checkName := "Title Tag" }],
    totalTimeEstimate := "5 minutes", timestamp := "2026-01-01" }

/-! ## Helper lemmas -/

theorem clampScore_nonneg (x : Int) : 0 ≤ clampScore x := le_max_left 0 _

theorem clampScore_le (x : Int) : clampScore x ≤ 100 := by
  unfold clampScore
  rcases le_total 0 (min 100 x) with h | h
  · rw [max_eq_right h]; exact min_le_left _ _
  · rw [max_eq_left h]; norm_num

/-- A fold subtracting `f a` per element equals the start value minus the
    summed deductions. -/
theorem foldl_deduct {α : Type} (f : α → Int) (l : List α) :
    ∀ init : Int, (l.foldl (fun s a => s - f a) init) = init - (l.map f).sum := by
  induction l with
  | nil => intro init; simp
  | cons a t ih =>
    intro init
    simp only [List.foldl_cons, List.map_cons, List.sum_cons]
    rw [ih]
    ring

/-- The seo scoring fold deducts exactly `seoDeduction` per issue. -/
theorem seo_calcScore_eq (issues : List Seo.SEOIssue) :
    Seo.calcScore issues =
      100 - (issues.map (fun i => seoDeduction i.type i.priority)).sum := by
  have hstep :
      (fun (score : Int) (issue : Seo.SEOIssue) =>
        match issue.type with
        | .error =>
          score - (match issue.priority with
                   | .high => (15 : Int) | .medium => 10 | .low => 5)
        | .warning =>
          score - (match issue.priority with
                   | .high => (8 : Int) | .medium => 5 | .low => 2)
        | .info => score - 1
        | .success => score)
      = fun (score : Int) (issue : Seo.SEOIssue) =>
          score - seoDeduction issue.type issue.priority := by
    funext s i
    cases h1 : i.type <;> cases h2 : i.priority <;> simp [seoDeduction]
  unfold Seo.calcScore
  rw [hstep, foldl_deduct]

/-- The technical scoring fold deducts exactly `techDeduction` per issue. -/
theorem tech_calcScore_eq (issues : List Tech.TechnicalSEOIssue) :
    Tech.calcScore issues =
      100 - (issues.map (fun i => techDeduction i.type i.priority)).sum := by
  have hstep :
      (fun (score : Int) (issue : Tech.TechnicalSEOIssue) =>
        match issue.type with
        | .error =>
          score - (match issue.priority with
                   | .high => (20 : Int) | .medium => 12 | .low => 6)
        | .warning =>
          score - (match issue.priority with
                   | .high => (10 : Int) | .medium => 6 | .low => 3)
        | .info => score - 1
        | .success => score)
      = fun (score : Int) (issue : Tech.TechnicalSEOIssue) =>
          score - techDeduction issue.type issue.priority := by
    funext s i
    cases h1 : i.type <;> cases h2 : i.priority <;> simp [techDeduction]
  unfold Tech.calcScore
  rw [hstep, foldl_deduct]

/-- The quick-wins scoring fold deducts exactly `qwDeduction` per win. -/
theorem qw_calcScore_eq (wins : List QW.QuickWin) :
    QW.calcScore wins =
      100 - (wins.map (fun w => qwDeduction w.impact)).sum := by
  have hstep :
      (fun (score : Int) (win : QW.QuickWin) =>
        score - (match win.impact with
                 | .high => (15 : Int) | .medium => 8 | .low => 3))
      = fun (score : Int) (win : QW.QuickWin) =>
          score - qwDeduction win.impact := by
    funext s w
    cases h1 : w.impact <;> simp [qwDeduction]
  unfold QW.calcScore
  rw [hstep, foldl_deduct]

/-- The pagespeed scoring fold deducts exactly `pspdDeduction` per issue. -/
theorem pspd_calcScore_eq (issues : List PSpd.PageSpeedIssue) :
    PSpd.calcScore issues =
      100 - (issues.map (fun i => pspdDeduction i.type i.priority)).sum := by
  have hstep :
      (fun (score : Int) (issue : PSpd.PageSpeedIssue) =>
        match issue.type with
        | .error =>
          score - (match issue.priority with
                   | .high => (25 : Int) | .medium => 15 | .low => 8)
        | .warning =>
          score - (match issue.priority with
                   | .high => (12 : Int) | .medium => 8 | .low => 4)
        | .info => score - 2
        | .success => score)
      = fun (score : Int) (issue : PSpd.PageSpeedIssue) =>
          score - pspdDeduction issue.type issue.priority := by
    funext s i
    cases h1 : i.type <;> cases h2 : i.priority <;> simp [pspdDeduction]
  unfold PSpd.calcScore
  rw [hstep, foldl_deduct]

/-- The image scan's first two components count the falsy-`alt` images and
    the whitespace-only-`alt` images. -/
theorem imgScan_counts (imgs : List Img) :
    ∀ st : Nat × Nat × List String,
      (imgs.foldl
        (fun (st : Nat × Nat × List String) img =>
          if attrFalsy img.alt then
            (st.1 + 1, st.2.1, st.2.2 ++ [Seo.imgFileName img.src])
          else if jsTrim (img.alt.getD "") = "" then
            (st.1, st.2.1 + 1, st.2.2 ++ [Seo.imgFileName img.src])
          else st) st).1
        = st.1 + imgs.countP (fun i => attrFalsy i.alt) ∧
      (imgs.foldl
        (fun (st : Nat × Nat × List String) img =>
          if attrFalsy img.alt then
            (st.1 + 1, st.2.1, st.2.2 ++ [Seo.imgFileName img.src])
          else if jsTrim (img.alt.getD "") = "" then
            (st.1, st.2.1 + 1, st.2.2 ++ [Seo.imgFileName img.src])
          else st) st).2.1
        = st.2.1 + imgs.countP
            (fun i => ¬ attrFalsy i.alt && jsTrim (i.alt.getD "") = "") := by
  induction imgs with
  | nil => intro st; simp
  | cons img t ih =>
    intro st
    simp only [List.foldl_cons, List.countP_cons]
    by_cases h1 : attrFalsy img.alt
    · obtain ⟨ihl, ihr⟩ := ih (st.1 + 1, st.2.1, st.2.2 ++ [Seo.imgFileName img.src])
      constructor
      · rw [if_pos h1]; rw [ihl]; simp [h1]; omega
      · rw [if_pos h1]; rw [ihr]; simp [h1]
    · by_cases h2 : jsTrim (img.alt.getD "") = ""
      · obtain ⟨ihl, ihr⟩ := ih (st.1, st.2.1 + 1, st.2.2 ++ [Seo.imgFileName img.src])
        constructor
        · rw [if_neg h1, if_pos h2]; rw [ihl]; simp [h1]
        · rw [if_neg h1, if_pos h2]; rw [ihr]; simp [h1, h2]; omega
      · obtain ⟨ihl, ihr⟩ := ih st
        constructor
        · rw [if_neg h1, if_neg h2]; rw [ihl]; simp [h1]
        · rw [if_neg h1, if_neg h2]; rw [ihr]; simp [h1, h2]

/-- Membership in the JS-`Set` accumulator. -/
theorem mem_addUnique (l : List String) (s u : String) :
    u ∈ Blog.addUnique l s ↔ u ∈ l ∨ u = s := by
  unfold Blog.addUnique
  by_cases h : s ∈ l
  · rw [if_pos h]
    constructor
    · exact fun hu => Or.inl hu
    · rintro (hu | rfl) <;> [exact hu; exact h]
  · rw [if_neg h]; simp

/-- The accumulator preserves `Nodup`. -/
theorem nodup_addUnique (l : List String) (s : String) (h : l.Nodup) :
    (Blog.addUnique l s).Nodup := by
  unfold Blog.addUnique
  by_cases hs : s ∈ l
  · rwa [if_pos hs]
  · rw [if_neg hs]
    exact List.Nodup.append h (List.nodup_singleton s)
      (by intro x hx hxs
          rw [List.mem_singleton] at hxs
          exact hs (hxs ▸ hx))

/-- Membership after the discovery fold: a URL is collected iff it was in
    the accumulator or some anchor contributes it. -/
theorem mem_discovery_foldl (E : UrlEnv) (baseUrl : String) :
    ∀ (anchors : List Anchor) (acc : List String) (u : String),
      u ∈ anchors.foldl
            (fun acc a =>
              match Blog.acceptedUrl E baseUrl a with
              | some v => Blog.addUnique acc v
              | none => acc) acc
        ↔ u ∈ acc ∨ ∃ a ∈ anchors, Blog.acceptedUrl E baseUrl a = some u := by
  intro anchors
  induction anchors with
  | nil => intro acc u; simp
  | cons a t ih =>
    intro acc u
    simp only [List.foldl_cons]
    cases ha : Blog.acceptedUrl E baseUrl a with
    | none =>
      rw [ih]
      constructor
      · rintro (h | ⟨b, hb, hbu⟩)
        · exact Or.inl h
        · exact Or.inr ⟨b, List.mem_cons_of_mem a hb, hbu⟩
      · rintro (h | ⟨b, hb, hbu⟩)
        · exact Or.inl h
        · rcases List.mem_cons.1 hb with rfl | hb2
          · rw [hbu] at ha; cases ha
          · exact Or.inr ⟨b, hb2, hbu⟩
    | some v =>
      rw [ih]
      constructor
      · rintro (h | ⟨b, hb, hbu⟩)
        · rcases (mem_addUnique acc v u).1 h with h2 | rfl
          · exact Or.inl h2
          · exact Or.inr ⟨a, List.mem_cons_self a t, ha⟩
        · exact Or.inr ⟨b, List.mem_cons_of_mem a hb, hbu⟩
      · rintro (h | ⟨b, hb, hbu⟩)
        · exact Or.inl ((mem_addUnique acc v u).2 (Or.inl h))
        · rcases List.mem_cons.1 hb with rfl | hb2
          · rw [hbu] at ha
            exact Or.inl ((mem_addUnique acc v u).2 (Or.inr (Option.some_inj.1 ha)))
          · exact Or.inr ⟨b, hb2, hbu⟩

/-- The discovery fold preserves `Nodup`. -/
theorem nodup_discovery_foldl (E : UrlEnv) (baseUrl : String) :
    ∀ (anchors : List Anchor) (acc : List String), acc.Nodup →
      (anchors.foldl
        (fun acc a =>
          match Blog.acceptedUrl E baseUrl a with
          | some v => Blog.addUnique acc v
          | none => acc) acc).Nodup := by
  intro anchors
  induction anchors with
  | nil => intro acc h; simpa using h
  | cons a t ih =>
    intro acc h
    simp only [List.foldl_cons]
    cases ha : Blog.acceptedUrl E baseUrl a with
    | none => exact ih acc h
    | some v => exact ih _ (nodup_addUnique acc v h)

/-- An element of a list is inside its `n`-prefix, unless that prefix is
    already full. -/
theorem mem_take_or_full {α : Type} (l : List α) (n : Nat) (u : α) (h : u ∈ l) :
    u ∈ l.take n ∨ (l.take n).length = n := by
  rcases le_or_lt l.length n with hle | hlt
  · rw [List.take_of_length_le hle]; exact Or.inl h
  · right
    rw [List.length_take]
    omega

/-- Unfolding: a non-quote character is consumed into the field. -/
theorem csvReadBody_cons_ne (c : Char) (X : List Char) (hc : ¬ c = dQuote) :
    csvReadBody (c :: X) = (csvReadBody X).map (fun p => (c :: p.1, p.2)) := by
  cases X with
  | nil => simp [csvReadBody, hc]
  | cons d ds => simp [csvReadBody, hc]

/-- Unfolding: a doubled quote is consumed as one quote character. -/
theorem csvReadBody_two_quotes (X : List Char) :
    csvReadBody (dQuote :: dQuote :: X)
      = (csvReadBody X).map (fun p => (dQuote :: p.1, p.2)) := by
  simp [csvReadBody]

/-- Reading back an escaped cell body recovers the original cell and leaves
    the rest of the row untouched (the closing quote is not followed by
    another quote). -/
theorem csvReadBody_escape (s : List Char) :
    ∀ tail : List Char, tail.head? ≠ some dQuote →
      csvReadBody (csvEscapeChars s ++ dQuote :: tail) = some (s, tail) := by
  induction s with
  | nil =>
    intro tail htail
    simp only [csvEscapeChars, List.flatMap_nil, List.nil_append]
    cases tail with
    | nil => simp [csvReadBody]
    | cons d ds =>
      have hd : ¬ d = dQuote := by
        intro h; exact htail (by simp [h])
      simp [csvReadBody, hd]
  | cons c cs ih =>
    intro tail htail
    by_cases hc : c = dQuote
    · subst hc
      rw [show csvEscapeChars (dQuote :: cs)
          = dQuote :: dQuote :: csvEscapeChars cs by simp [csvEscapeChars]]
      simp only [List.cons_append]
      rw [csvReadBody_two_quotes, ih tail htail]
      rfl
    · rw [show csvEscapeChars (c :: cs) = c :: csvEscapeChars cs by
        simp [csvEscapeChars, hc]]
      simp only [List.cons_append]
      rw [csvReadBody_cons_ne c _ hc, ih tail htail]
      rfl

/-- A rendered row has at least one character per cell boundary. -/
theorem csvRowChars_length (cells : List String) :
    cells.length ≤ (csvRowChars cells).length + 1 := by
  induction cells with
  | nil => simp [csvRowChars]
  | cons c rest ih =>
    cases rest with
    | nil => simp [csvRowChars, csvCellChars]
    | cons c2 rest2 =>
      rw [show csvRowChars (c :: c2 :: rest2)
          = csvCellChars c.data ++ ',' :: csvRowChars (c2 :: rest2) from rfl]
      have hcell : 2 ≤ (csvCellChars c.data).length := by
        simp [csvCellChars]
      simp only [List.length_append, List.length_cons] at *
      omega

/-- With enough fuel, the CSV reader inverts row rendering. -/
theorem csvReadRowAux_render :
    ∀ (cells : List String) (fuel : Nat), cells ≠ [] →
      cells.length ≤ fuel →
      csvReadRowAux fuel (csvRowChars cells) = some cells := by
  intro cells
  induction cells with
  | nil => intro fuel h; exact absurd rfl h
  | cons c rest ih =>
    intro fuel _ hfuel
    cases fuel with
    | zero => simp at hfuel
    | succ n =>
      cases rest with
      | nil =>
        have hbody : csvReadBody (csvEscapeChars c.data ++ dQuote :: ([] : List Char))
            = some (c.data, []) := csvReadBody_escape c.data [] (by simp)
        rw [show csvRowChars [c] = dQuote :: (csvEscapeChars c.data ++ [dQuote]) by
          simp [csvRowChars, csvCellChars]]
        simp only [csvReadRowAux, csvReadField, if_pos]
        rw [show csvEscapeChars c.data ++ [dQuote]
            = csvEscapeChars c.data ++ dQuote :: ([] : List Char) from rfl, hbody]
      | cons c2 rest2 =>
        have hne : c2 :: rest2 ≠ [] := by simp
        have hlen : (c2 :: rest2).length ≤ n := by
          simp only [List.length_cons] at hfuel ⊢
          omega
        have hbody : csvReadBody
            (csvEscapeChars c.data ++ dQuote :: ',' :: csvRowChars (c2 :: rest2))
            = some (c.data, ',' :: csvRowChars (c2 :: rest2)) :=
          csvReadBody_escape c.data _ (by simp [dQuote])
        rw [show csvRowChars (c :: c2 :: rest2)
            = dQuote :: (csvEscapeChars c.data ++ dQuote :: ','
                :: csvRowChars (c2 :: rest2)) by
          simp [csvRowChars, csvCellChars]]
        simp only [csvReadRowAux, csvReadField, if_pos]
        rw [hbody]
        simp only [if_pos]
        rw [ih n hne hlen]
        rfl

/-! ## Claim theorems -/

/-- C2: the retrieval function attempts a direct fetch with a 5-second
    timeout and returns immediately on success; on failure it walks the four
    relay endpoints in order with a 15-second timeout each, unwrapping the
    allorigins `{contents, status}` envelope and taking raw body plus relay
    HTTP status for the others; the first relay whose response is usable
    wins, with elapsed time accumulated from the original call start (so a
    later winner's time includes all failed attempts); if the direct attempt
    and every relay fail, the function throws. -/
theorem C2_fetch_fallback :
    (∀ (net : Net) (url : String) (d : Nat) (r : Response),
       net.attempt url 5000 = (d, some r) →
       fetchWithProxy net url = .ok (r.body, r.status, d)) ∧
    (∀ (net : Net) (url : String) (d0 d1 : Nat) (r : Response) (env : Envelope),
       net.attempt url 5000 = (d0, none) →
       net.attempt ("https://api.allorigins.win/get?url=" ++ encodeURIComponent url)
         15000 = (d1, some r) →
       r.json = some env →
       fetchWithProxy net url
         = .ok (env.contents, envelopeStatus env.http_code, d0 + d1)) ∧
    (∀ (net : Net) (url : String) (d0 d1 d2 : Nat) (r : Response),
       net.attempt url 5000 = (d0, none) →
       net.attempt ("https://api.allorigins.win/get?url=" ++ encodeURIComponent url)
         15000 = (d1, none) →
       net.attempt ("https://corsproxy.io/?" ++ encodeURIComponent url)
         15000 = (d2, some r) →
       fetchWithProxy net url = .ok (r.body, r.status, d0 + d1 + d2) ∧
         d0 + d1 ≤ d0 + d1 + d2) ∧
    (∀ (net : Net) (url : String) (d0 : Nat),
       net.attempt url 5000 = (d0, none) →
       (∀ p ∈ corsProxies,
         (net.attempt (p ++ encodeURIComponent url) 15000).2 = none) →
       fetchWithProxy net url
         = .error "All proxy attempts failed. The website may be blocking requests or temporarily unavailable.") := by
  have hA : containsSubstr "https://api.allorigins.win/get?url=" "allorigins.win" = true := by
    decide
  have hC : containsSubstr "https://corsproxy.io/?" "allorigins.win" = false := by
    decide
  refine ⟨?_, ?_, ?_, ?_⟩
  · intro net url d r h0
    simp [fetchWithProxy, h0]
  · intro net url d0 d1 r env h0 h1 hj
    simp [fetchWithProxy, h0, corsProxies, tryProxies, h1, hA, hj]
  · intro net url d0 d1 d2 r h0 h1 h2
    constructor
    · simp [fetchWithProxy, h0, corsProxies, tryProxies, h1, h2, hA, hC]
    · omega
  · intro net url d0 h0 hall
    have h1 := hall "https://api.allorigins.win/get?url=" (by simp [corsProxies])
    have h2 := hall "https://corsproxy.io/?" (by simp [corsProxies])
    have h3 := hall "https://cors-anywhere.herokuapp.com/" (by simp [corsProxies])
    have h4 := hall "https://thingproxy.freeboard.io/fetch/" (by simp [corsProxies])
    simp only [fetchWithProxy, h0, corsProxies]
    rcases hp1 : net.attempt ("https://api.allorigins.win/get?url=" ++ encodeURIComponent url) 15000 with ⟨e1, o1⟩
    rcases hp2 : net.attempt ("https://corsproxy.io/?" ++ encodeURIComponent url) 15000 with ⟨e2, o2⟩
    rcases hp3 : net.attempt ("https://cors-anywhere.herokuapp.com/" ++ encodeURIComponent url) 15000 with ⟨e3, o3⟩
    rcases hp4 : net.attempt ("https://thingproxy.freeboard.io/fetch/" ++ encodeURIComponent url) 15000 with ⟨e4, o4⟩
    rw [hp1] at h1; rw [hp2] at h2; rw [hp3] at h3; rw [hp4] at h4
    simp at h1 h2 h3 h4
    subst h1; subst h2; subst h3; subst h4
    simp [tryProxies, hp1, hp2, hp3, hp4]

/-- C2 witness: concrete nets realising the fallback-win scenario and the
    all-fail scenario. -/
theorem C2_fetch_fallback_witness :
    (fetchWithProxy relayNet "https://x.com" = .ok ("BODY", 200, 31) ∧
      7 + 11 ≤ 7 + 11 + 13) ∧
    fetchWithProxy downNet "https://x.com"
      = .error "All proxy attempts failed. The website may be blocking requests or temporarily unavailable." := by
  constructor
  · exact C2_fetch_fallback.2.2.1 relayNet "https://x.com" 7 11 13
      { body := "BODY", status := 200 } (by decide) (by decide) (by decide)
  · exact C2_fetch_fallback.2.2.2 downNet "https://x.com" 3 rfl
      (fun p _ => rfl)

/-- C4: for every environment and input URL, the score field of the report
    returned by each top-level analyze call lies in the closed interval
    [0, 100] (error reports score 0, the blog no-posts report 50, and every
    computed score passes the final clamp). -/
theorem C4_score_range :
    (∀ (E : UrlEnv) (fetch : Option PageFetch) (url : String),
       0 ≤ (Seo.analyzePage E fetch url).score ∧
         (Seo.analyzePage E fetch url).score ≤ 100) ∧
    (∀ (E : UrlEnv) (fetch : Option PageFetch) (url : String),
       0 ≤ (Tech.analyzePage E fetch url).score ∧
         (Tech.analyzePage E fetch url).score ≤ 100) ∧
    (∀ (fetch : Option PageFetch) (url : String),
       0 ≤ (QW.analyzeQuickWins fetch url).overallScore ∧
         (QW.analyzeQuickWins fetch url).overallScore ≤ 100) ∧
    (∀ (fetch : Option PageFetch) (url : String),
       0 ≤ (PSpd.analyzePage fetch url).score ∧
         (PSpd.analyzePage fetch url).score ≤ 100) ∧
    (∀ (E : UrlEnv) (seedFetch : Option Doc) (pf : String → Option Blog.PostDoc)
       (url : String),
       0 ≤ (Blog.analyzeContent E seedFetch pf url).score ∧
         (Blog.analyzeContent E seedFetch pf url).score ≤ 100) ∧
    (∀ (E : UrlEnv) (net : Site.SiteNet) (url : String),
       0 ≤ (Site.analyzeSite E net url).score ∧
         (Site.analyzeSite E net url).score ≤ 100) := by
  refine ⟨?_, ?_, ?_, ?_, ?_, ?_⟩
  · intro E fetch url
    simp only [Seo.analyzePage]
    split
    · simp [Seo.errorResult]
    · split
      · simp [Seo.errorResult]
      · exact ⟨clampScore_nonneg _, clampScore_le _⟩
  · intro E fetch url
    simp only [Tech.analyzePage]
    split
    · simp [Tech.errorResult]
    · split
      · simp [Tech.errorResult]
      · exact ⟨clampScore_nonneg _, clampScore_le _⟩
  · intro fetch url
    simp only [QW.analyzeQuickWins]
    split
    · norm_num
    · exact ⟨clampScore_nonneg _, clampScore_le _⟩
  · intro fetch url
    simp only [PSpd.analyzePage]
    split
    · simp [PSpd.errorResult]
    · exact ⟨clampScore_nonneg _, clampScore_le _⟩
  · intro E seedFetch pf url
    simp only [Blog.analyzeContent]
    split
    · simp [Blog.errorResult]
    · split
      · simp [Blog.noPostsResult]
      · exact ⟨clampScore_nonneg _, clampScore_le _⟩
  · intro E net url
    simp only [Site.analyzeSite]
    split
    · simp [Site.catchResult]
    · split
      · simp [Site.catchResult]
      · split
        · simp [Site.catchResult]
        · exact ⟨clampScore_nonneg _, clampScore_le _⟩

/-- C10: when the seed page fetch succeeds but URL discovery yields zero
    candidates, `analyzeContent` returns a report with score exactly 50 (a
    fixed constant, not a deduction-table result), totalPosts 0,
    scannedPosts 0, an empty post list, an all-zero summary, and exactly one
    Warning/medium issue saying "No blog posts found". -/
theorem C10_no_posts (E : UrlEnv) (doc : Doc)
    (pf : String → Option Blog.PostDoc) (url : String)
    (h : Blog.findBlogUrls E doc (normalizeUrl url) = []) :
    Blog.analyzeContent E (some doc) pf url
      = Blog.noPostsResult (normalizeUrl url) ∧
    (Blog.analyzeContent E (some doc) pf url).score = 50 ∧
    (Blog.analyzeContent E (some doc) pf url).totalPosts = 0 ∧
    (Blog.analyzeContent E (some doc) pf url).scannedPosts = 0 ∧
    (Blog.analyzeContent E (some doc) pf url).posts = [] ∧
    (Blog.analyzeContent E (some doc) pf url).summary =
      { thinContent := 0, duplicateContent := 0, missingMetaDescriptions := 0,
        poorStructure := 0, averageWordCount := 0, averageReadingTime := 0 } ∧
    (Blog.analyzeContent E (some doc) pf url).issues.map
        (fun i => (i.type, i.priority, i.message))
      = [(.warning, .medium, "No blog posts found")] := by
  have hmain : Blog.analyzeContent E (some doc) pf url
      = Blog.noPostsResult (normalizeUrl url) := by
    simp [Blog.analyzeContent, h]
  refine ⟨hmain, ?_, ?_, ?_, ?_, ?_, ?_⟩ <;> rw [hmain] <;> rfl

/-- C10 witness: a link-free seed page on the concrete environment. -/
theorem C10_no_posts_witness :
    Blog.analyzeContent toyEnv (some emptySeedDoc) (fun _ => none)
        "https://example.com"
      = Blog.noPostsResult "https://example.com" ∧
    (Blog.analyzeContent toyEnv (some emptySeedDoc) (fun _ => none)
        "https://example.com").score = 50 :=
  have h := C10_no_posts toyEnv emptySeedDoc (fun _ => none)
    "https://example.com" (by decide)
  ⟨by
    have h1 := h.1
    rwa [show normalizeUrl "https://example.com" = "https://example.com" by decide] at h1,
   h.2.1⟩

/-- C8: in the blog mini-crawl, a fetch/parse failure on one candidate page
    degrades to the placeholder post (title "Failed to analyze", zero
    metrics, quality tier thin), and `analyzeContent` still maps the
    analysis over every candidate (up to the cap of 15) — one result per
    candidate, so the batch never aborts. -/
theorem C8_batch_degradation :
    (∀ (E : UrlEnv) (pf : String → Option Blog.PostDoc) (url : String),
       pf url = none →
       Blog.analyzeBlogPost E pf url = Blog.failedPost url) ∧
    (∀ url : String,
       (Blog.failedPost url).wordCount = 0 ∧
       (Blog.failedPost url).readingTime = 0 ∧
       (Blog.failedPost url).imageCount = 0 ∧
       (Blog.failedPost url).imagesWithoutAlt = 0 ∧
       (Blog.failedPost url).internalLinks = 0 ∧
       (Blog.failedPost url).externalLinks = 0 ∧
       (Blog.failedPost url).contentQuality = .thin ∧
       (Blog.failedPost url).title = "Failed to analyze") ∧
    (∀ (E : UrlEnv) (doc : Doc) (pf : String → Option Blog.PostDoc) (url : String),
       (Blog.findBlogUrls E doc (normalizeUrl url)).length ≠ 0 →
       (Blog.analyzeContent E (some doc) pf url).posts
         = ((Blog.findBlogUrls E doc (normalizeUrl url)).take
             (min (Blog.findBlogUrls E doc (normalizeUrl url)).length 15)).map
             (Blog.analyzeBlogPost E pf) ∧
       (Blog.analyzeContent E (some doc) pf url).scannedPosts
         = min (Blog.findBlogUrls E doc (normalizeUrl url)).length 15) := by
  refine ⟨?_, ?_, ?_⟩
  · intro E pf url h
    simp [Blog.analyzeBlogPost, h]
  · intro url
    simp [Blog.failedPost]
  · intro E doc pf url h
    have hposts : (Blog.analyzeContent E (some doc) pf url).posts
        = ((Blog.findBlogUrls E doc (normalizeUrl url)).take
            (min (Blog.findBlogUrls E doc (normalizeUrl url)).length 15)).map
            (Blog.analyzeBlogPost E pf) := by
      simp only [Blog.analyzeContent]
      rw [if_neg h]
    refine ⟨hposts, ?_⟩
    have hscanned : (Blog.analyzeContent E (some doc) pf url).scannedPosts
        = (Blog.analyzeContent E (some doc) pf url).posts.length := by
      simp only [Blog.analyzeContent]
      rw [if_neg h]
    rw [hscanned, hposts, List.length_map, List.length_take]
    omega

/-- C8 witness: a failing post oracle over the concrete crawl example —
    the one discovered candidate still yields one (placeholder) result. -/
theorem C8_batch_degradation_witness :
    Blog.analyzeBlogPost toyEnv (fun _ => none) "https://example.com/blog/post-1"
      = Blog.failedPost "https://example.com/blog/post-1" ∧
    (Blog.analyzeContent toyEnv (some crawlSeedDoc) (fun _ => none)
        "https://example.com").posts
      = [Blog.failedPost "https://example.com/blog/post-1"] := by
  constructor
  · exact C8_batch_degradation.1 toyEnv (fun _ => none)
      "https://example.com/blog/post-1" rfl
  · have h := (C8_batch_degradation.2.2 toyEnv crawlSeedDoc (fun _ => none)
      "https://example.com" (by decide)).1
    rw [h]
    rw [show Blog.findBlogUrls toyEnv crawlSeedDoc
          (normalizeUrl "https://example.com")
        = ["https://example.com/blog/post-1"] by decide]
    simp
    exact C8_batch_degradation.1 toyEnv (fun _ => none)
      "https://example.com/blog/post-1" rfl

/-- The per-link acceptance of `findBlogUrls` coincides with the spec's
    keep-condition. -/
theorem acceptedUrl_iff_specKeeps (E : UrlEnv) (baseUrl : String) (a : Anchor)
    (u : String) :
    Blog.acceptedUrl E baseUrl a = some u ↔ specKeeps E baseUrl a u := by
  constructor
  · intro h
    simp only [Blog.acceptedUrl] at h
    cases ha : a.href with
    | none => rw [ha] at h; simp at h
    | some href =>
      rw [ha] at h
      dsimp only at h
      by_cases he : href = ""
      · simp [he] at h
      · rw [if_neg he] at h
        rcases hres : (if jsStartsWith href "http" then some href
            else (E.resolve href baseUrl).map (fun x => x.href)) with _ | fullUrl
        · rw [hres] at h; simp at h
        · rw [hres] at h
          dsimp only at h
          by_cases hcond :
              (Blog.blogPatternStrings.any
                  (fun p => containsSubstr (jsToLower fullUrl) p) ||
                Blog.blogKeywords.any
                  (fun k => containsSubstr (jsToLower a.text) k)) = true
          · rw [if_pos hcond] at h
            rcases hpu : E.parse fullUrl with _ | lu
            · rw [hpu] at h; simp at h
            · rcases hpb : E.parse baseUrl with _ | bu
              · rw [hpu, hpb] at h; simp at h
              · rw [hpu, hpb] at h
                dsimp only at h
                by_cases hh : lu.hostname = bu.hostname
                · rw [if_pos hh] at h
                  have hu : fullUrl = u := by simpa using h
                  subst hu
                  refine ⟨href, ha, he, ?_, ?_, lu, bu, hpu, hpb, hh⟩
                  · by_cases hst : jsStartsWith href "http" = true
                    · rw [if_pos hst] at hres ⊢
                      simpa using hres.symm
                    · rw [if_neg hst] at hres
                      rw [if_neg hst]
                      exact hres
                  · simpa [Bool.or_eq_true] using hcond
                · rw [if_neg hh] at h; simp at h
          · rw [if_neg hcond] at h; simp at h
  · rintro ⟨href, ha, he, hres, hcond, lu, bu, hpu, hpb, hh⟩
    simp only [Blog.acceptedUrl]
    rw [ha]
    dsimp only
    rw [if_neg he]
    by_cases hst : jsStartsWith href "http" = true
    · rw [if_pos hst] at hres
      subst hres
      rw [if_pos hst]
      dsimp only
      have hcondb :
          (Blog.blogPatternStrings.any
              (fun p => containsSubstr (jsToLower u) p) ||
            Blog.blogKeywords.any
              (fun k => containsSubstr (jsToLower a.text) k)) = true := by
        simpa [Bool.or_eq_true] using hcond
      rw [if_pos hcondb, hpu, hpb]
      dsimp only
      rw [if_pos hh]
    · rw [if_neg hst] at hres
      rw [if_neg hst, hres]
      dsimp only
      have hcondb :
          (Blog.blogPatternStrings.any
              (fun p => containsSubstr (jsToLower u) p) ||
            Blog.blogKeywords.any
              (fun k => containsSubstr (jsToLower a.text) k)) = true := by
        simpa [Bool.or_eq_true] using hcond
      rw [if_pos hcondb, hpu, hpb]
      dsimp only
      rw [if_pos hh]

/-- C5: URL discovery keeps a hyperlink's resolved absolute URL exactly when
    the resolved hostname equals the seed's hostname and either the URL
    matches a fixed path pattern (case-insensitive) or the anchor text
    contains a fixed keyword — soundly (every returned URL comes from such a
    link) and completely up to the cap (such a URL is returned unless the
    20-candidate cap is already full); the result is deduplicated, at most
    20 candidates are surfaced, and at most 15 posts are ever analyzed. -/
theorem C5_discovery :
    (∀ (E : UrlEnv) (baseUrl : String) (a : Anchor) (u : String),
       Blog.acceptedUrl E baseUrl a = some u ↔ specKeeps E baseUrl a u) ∧
    (∀ (E : UrlEnv) (d : Doc) (baseUrl : String) (u : String),
       u ∈ Blog.findBlogUrls E d baseUrl →
       ∃ a ∈ d.anchors, specKeeps E baseUrl a u) ∧
    (∀ (E : UrlEnv) (d : Doc) (baseUrl : String) (a : Anchor) (u : String),
       a ∈ d.anchors → specKeeps E baseUrl a u →
       u ∈ Blog.findBlogUrls E d baseUrl ∨
         (Blog.findBlogUrls E d baseUrl).length = 20) ∧
    (∀ (E : UrlEnv) (d : Doc) (baseUrl : String),
       (Blog.findBlogUrls E d baseUrl).Nodup) ∧
    (∀ (E : UrlEnv) (d : Doc) (baseUrl : String),
       (Blog.findBlogUrls E d baseUrl).length ≤ 20) ∧
    (∀ (E : UrlEnv) (seedFetch : Option Doc)
       (pf : String → Option Blog.PostDoc) (url : String),
       (Blog.analyzeContent E seedFetch pf url).scannedPosts ≤ 15) := by
  refine ⟨acceptedUrl_iff_specKeeps, ?_, ?_, ?_, ?_, ?_⟩
  · intro E d baseUrl u hu
    have hu2 : u ∈ d.anchors.foldl
        (fun acc a =>
          match Blog.acceptedUrl E baseUrl a with
          | some v => Blog.addUnique acc v
          | none => acc) [] :=
      List.take_subset 20 _ hu
    rcases (mem_discovery_foldl E baseUrl d.anchors [] u).1 hu2 with h | ⟨a, haa, hacc⟩
    · simp at h
    · exact ⟨a, haa, (acceptedUrl_iff_specKeeps E baseUrl a u).1 hacc⟩
  · intro E d baseUrl a u ha hk
    have hacc := (acceptedUrl_iff_specKeeps E baseUrl a u).2 hk
    have hmem : u ∈ d.anchors.foldl
        (fun acc a =>
          match Blog.acceptedUrl E baseUrl a with
          | some v => Blog.addUnique acc v
          | none => acc) [] :=
      (mem_discovery_foldl E baseUrl d.anchors [] u).2 (Or.inr ⟨a, ha, hacc⟩)
    exact mem_take_or_full _ 20 u hmem
  · intro E d baseUrl
    exact List.Sublist.nodup (List.take_sublist _ _)
      (nodup_discovery_foldl E baseUrl d.anchors [] (List.nodup_nil))
  · intro E d baseUrl
    exact List.length_take_le 20 _
  · intro E seedFetch pf url
    simp only [Blog.analyzeContent]
    split
    · simp [Blog.errorResult]
    · split
      · simp [Blog.noPostsResult]
      · simp only [List.length_map, List.length_take]
        omega

/-- C5 witness: the spec's crawl example — only the same-host blog-pattern
    link survives. -/
theorem C5_discovery_witness :
    ("https://example.com/blog/post-1"
        ∈ Blog.findBlogUrls toyEnv crawlSeedDoc "https://example.com" ∨
      (Blog.findBlogUrls toyEnv crawlSeedDoc "https://example.com").length = 20) ∧
    (∃ a ∈ crawlSeedDoc.anchors,
      specKeeps toyEnv "https://example.com" a "https://example.com/blog/post-1") := by
  have ha : ({ href := some "/blog/post-1", text := "First" } : Anchor)
      ∈ crawlSeedDoc.anchors := by
    simp [crawlSeedDoc]
  have hk : specKeeps toyEnv "https://example.com"
      { href := some "/blog/post-1", text := "First" }
      "https://example.com/blog/post-1" :=
    (acceptedUrl_iff_specKeeps toyEnv "https://example.com"
      { href := some "/blog/post-1", text := "First" }
      "https://example.com/blog/post-1").1 (by decide)
  exact ⟨C5_discovery.2.2.1 toyEnv crawlSeedDoc "https://example.com" _ _ ha hk,
    ⟨_, ha, hk⟩⟩

/-- C3 counterexample: in the blog-content module no deduction table keyed
    by `(kind, priority)` can reproduce the score.  Two post lists producing
    the same single Error/high issue (one vs two thin posts) score 90 and 80
    respectively, so the deduction is driven by the post counts, not by the
    issue's kind and priority. -/
theorem C3_counterexample :
    ¬ ∃ d : IssueType → Priority → Int,
      ∀ posts : List Blog.BlogPost,
        clampScore (Blog.calcScore posts)
          = clampScore (100 - ((Blog.blogIssues posts).map
              (fun i => d i.type i.priority)).sum) := by
  rintro ⟨d, hd⟩
  have h1 := hd [thinPost "a"]
  have h2 := hd [thinPost "a", thinPost "b"]
  have key : ∀ l : List Blog.BlogContentIssue,
      l.map (fun i => d i.type i.priority)
        = (l.map (fun i => (i.type, i.priority))).map (fun p => d p.1 p.2) := by
    intro l
    rw [List.map_map]
    rfl
  rw [key] at h1 h2
  rw [show (Blog.blogIssues [thinPost "a"]).map (fun i => (i.type, i.priority))
      = [(.error, .high)] from by decide] at h1
  rw [show (Blog.blogIssues [thinPost "a", thinPost "b"]).map
        (fun i => (i.type, i.priority))
      = [(.error, .high)] from by decide] at h2
  rw [show Blog.calcScore [thinPost "a"] = 90 from by decide] at h1
  rw [show Blog.calcScore [thinPost "a", thinPost "b"] = 80 from by decide] at h2
  have hcontra : clampScore 90 = clampScore 80 := h1.trans h2.symm
  norm_num [clampScore] at hcontra

/-- C3 (amended): in the per-issue modules the score really is `100` minus a
    deduction determined only by `(kind, priority)` — 15/10/5, 8/5/2, 1 in
    the single-page SEO module, 20/12/6, 10/6/3, 1 in the technical module,
    15/8/3 per win by impact in the quick-wins module, and 25/15/8, 12/8/4,
    2 in the pagespeed module, Success deducting nothing — clamped in the
    respective analyze entry point; the blog-content module instead deducts
    per aggregate post count: `10×` thin posts, `8×` posts missing meta
    descriptions, `5×` posts with poor structure, plus `min(3× posts with
    missing alts, 20)`. -/
theorem C3_scoring :
    (∀ issues : List Seo.SEOIssue,
       Seo.calcScore issues
         = 100 - (issues.map (fun i => seoDeduction i.type i.priority)).sum) ∧
    (∀ issues : List Tech.TechnicalSEOIssue,
       Tech.calcScore issues
         = 100 - (issues.map (fun i => techDeduction i.type i.priority)).sum) ∧
    (∀ (E : UrlEnv) (pf : PageFetch) (url : String) (u : UrlParts),
       E.parse (normalizeUrl url) = some u →
       (Seo.analyzePage E (some pf) url).score
         = clampScore (Seo.calcScore (Seo.analyzePage E (some pf) url).issues)) ∧
    (∀ (E : UrlEnv) (pf : PageFetch) (url : String) (u : UrlParts),
       E.parse (normalizeUrl url) = some u →
       (Tech.analyzePage E (some pf) url).score
         = clampScore (Tech.calcScore (Tech.analyzePage E (some pf) url).issues)) ∧
    (∀ posts : List Blog.BlogPost,
       Blog.calcScore posts
         = 100
           - (posts.countP (fun p => p.contentQuality = .thin) : Int) * 10
           - (posts.countP (fun p => ¬ p.hasMetaDescription) : Int) * 8
           - (posts.countP (fun p => p.h1Count ≠ 1 || p.h2Count = 0) : Int) * 5
           - min ((posts.countP (fun p => p.imagesWithoutAlt > 0) : Int) * 3) 20) ∧
    (∀ wins : List QW.QuickWin,
       QW.calcScore wins
         = 100 - (wins.map (fun w => qwDeduction w.impact)).sum) ∧
    (∀ (pf : PageFetch) (url : String),
       (QW.analyzeQuickWins (some pf) url).overallScore
         = clampScore (QW.calcScore
             (QW.analyzeQuickWins (some pf) url).quickWins)) ∧
    (∀ issues : List PSpd.PageSpeedIssue,
       PSpd.calcScore issues
         = 100 - (issues.map (fun i => pspdDeduction i.type i.priority)).sum) ∧
    (∀ (pf : PageFetch) (url : String),
       (PSpd.analyzePage (some pf) url).score
         = clampScore (PSpd.calcScore
             (PSpd.analyzePage (some pf) url).issues)) := by
  refine ⟨seo_calcScore_eq, tech_calcScore_eq, ?_, ?_, ?_,
    qw_calcScore_eq, ?_, pspd_calcScore_eq, ?_⟩
  · intro E pf url u hp
    simp only [Seo.analyzePage, hp]
  · intro E pf url u hp
    simp only [Tech.analyzePage, hp]
  · intro posts
    simp only [Blog.calcScore, List.countP_eq_length_filter]
  · intro pf url
    rfl
  · intro pf url
    rfl

/-- C3 witness: the tables evaluated on a concrete report — a single-page
    SEO analysis of an empty page on a clean fetch. -/
theorem C3_scoring_witness :
    (Seo.analyzePage toyEnv (some { doc := {} }) "https://example.com").score
      = clampScore (Seo.calcScore
          (Seo.analyzePage toyEnv (some { doc := {} }) "https://example.com").issues) ∧
    Seo.calcScore [] = 100 - (([] : List Seo.SEOIssue).map
      (fun i => seoDeduction i.type i.priority)).sum := by
  constructor
  · exact C3_scoring.2.2.1 toyEnv { doc := {} } "https://example.com"
      { href := "https://example.com", hostname := "example.com",
        origin := "https://example.com" } (by decide)
  · exact C3_scoring.1 []

/-- C6 counterexample: a page whose one `<img>` lacks `alt` makes the
    single-page SEO alt check emit an Error/high issue — not the
    Warning/medium issue the claim describes — and a page with no images at
    all emits no Success issue despite every image vacuously having alt. -/
theorem C6_counterexample :
    (Seo.analyzeImages missingAltDoc).map (fun i => (i.type, i.priority))
      = [(.error, .high)] ∧
    Seo.analyzeImages ({} : Doc) = [] := by
  constructor <;> decide

/-- C6 (amended): an `<img>` whose `alt` is absent or empty (JS-falsy)
    yields an Error/high issue scaled by the count; a whitespace-only `alt`
    yields a Warning/medium issue; the Success/low issue appears only when
    the page has at least one image and neither counter fired; and in the
    quick-wins module the same falsy-`alt` count yields a medium-impact,
    easy-effort quick win. -/
theorem C6_image_alt :
    (∀ imgs : List Img,
       (Seo.imgScan imgs).1 = imgs.countP (fun i => attrFalsy i.alt) ∧
       (Seo.imgScan imgs).2.1
         = imgs.countP (fun i => ¬ attrFalsy i.alt && jsTrim (i.alt.getD "") = "")) ∧
    (∀ d : Doc, 0 < (Seo.imgScan d.imgs).1 →
       ∃ i ∈ Seo.analyzeImages d, i.type = .error ∧ i.priority = .high ∧
         i.message = s!"{(Seo.imgScan d.imgs).1} images missing alt attributes") ∧
    (∀ d : Doc, 0 < (Seo.imgScan d.imgs).2.1 →
       ∃ i ∈ Seo.analyzeImages d, i.type = .warning ∧ i.priority = .medium ∧
         i.message = s!"{(Seo.imgScan d.imgs).2.1} images with empty alt attributes") ∧
    (∀ d : Doc, 0 < d.imgs.length → (Seo.imgScan d.imgs).1 = 0 →
       (Seo.imgScan d.imgs).2.1 = 0 →
       ∃ i ∈ Seo.analyzeImages d, i.type = .success ∧ i.priority = .low ∧
         i.message = s!"All {d.imgs.length} images have alt attributes") ∧
    (∀ (pf : PageFetch) (url : String),
       0 < pf.doc.imgs.countP (fun i => attrFalsy i.alt) →
       ∃ w ∈ (QW.analyzeQuickWins (some pf) url).quickWins,
         w.impact = .medium ∧ w.effort = .easy ∧
         w.issue = s!"{pf.doc.imgs.countP (fun i => attrFalsy i.alt)} images missing alt text") := by
  refine ⟨?_, ?_, ?_, ?_, ?_⟩
  · intro imgs
    have h := imgScan_counts imgs (0, 0, [])
    constructor
    · simpa [Seo.imgScan] using h.1
    · simpa [Seo.imgScan] using h.2
  · intro d h
    refine ⟨{ type := .error, category := "images",
              message := s!"{(Seo.imgScan d.imgs).1} images missing alt attributes",
              priority := .high,
              element := some (String.intercalate ", "
                ((Seo.imgScan d.imgs).2.2.take 3)),
              recommendation := some
                "Add descriptive alt text to all images for accessibility and SEO" },
      ?_, rfl, rfl, rfl⟩
    simp only [Seo.analyzeImages]
    rw [if_pos h]
    simp
  · intro d h
    refine ⟨{ type := .warning, category := "images",
              message := s!"{(Seo.imgScan d.imgs).2.1} images with empty alt attributes",
              priority := .medium,
              element := some (String.intercalate ", "
                ((Seo.imgScan d.imgs).2.2.take 3)),
              recommendation := some
                "Add descriptive alt text or use alt=\"\" for decorative images" },
      ?_, rfl, rfl, rfl⟩
    simp only [Seo.analyzeImages]
    rw [if_pos h]
    simp
  · intro d hlen h1 h2
    refine ⟨{ type := .success, category := "images",
              message := s!"All {d.imgs.length} images have alt attributes",
              priority := .low }, ?_, rfl, rfl, rfl⟩
    simp only [Seo.analyzeImages]
    have hcond : (d.imgs.length > 0 && (Seo.imgScan d.imgs).1 = 0
        && (Seo.imgScan d.imgs).2.1 = 0) = true := by
      simp [hlen, h1, h2]
    rw [if_pos hcond]
    simp
  · intro pf url h
    refine ⟨{ category := "content",
              issue := s!"{pf.doc.imgs.countP (fun i => attrFalsy i.alt)} images missing alt text",
              impact := .medium, effort := .easy,
              recommendation := "Add descriptive alt text to all images",
              priority := 7 }, ?_, rfl, rfl, rfl⟩
    simp only [QW.analyzeQuickWins, QW.sortWins]
    refine (List.mergeSort_perm _ _).mem_iff.2 ?_
    simp only [QW.collectWins]
    rw [if_pos h]
    simp

/-- C6 witness: the concrete one-missing-alt page, for both modules. -/
theorem C6_image_alt_witness :
    (∃ i ∈ Seo.analyzeImages missingAltDoc,
       i.type = .error ∧ i.priority = .high ∧
       i.message = s!"{(Seo.imgScan missingAltDoc.imgs).1} images missing alt attributes") ∧
    (∃ w ∈ (QW.analyzeQuickWins (some { doc := missingAltDoc })
        "https://example.com").quickWins,
       w.impact = .medium ∧ w.effort = .easy ∧
       w.issue = s!"{missingAltDoc.imgs.countP (fun i => attrFalsy i.alt)} images missing alt text") :=
  ⟨C6_image_alt.2.1 missingAltDoc (by decide),
   C6_image_alt.2.2.2.2 { doc := missingAltDoc } "https://example.com" (by decide)⟩

/-- C7 counterexample: a page carrying only `og:url` (one of the four tags)
    — the single-page SEO module counts just three tags, so it reports
    "No Open Graph tags found" instead of the 1-of-4 incomplete message the
    claim requires. -/
theorem C7_counterexample :
    ((if ogUrlOnlyDoc.ogTitle then 1 else 0)
      + (if ogUrlOnlyDoc.ogDescription then 1 else 0)
      + (if ogUrlOnlyDoc.ogImage then 1 else 0)
      + (if ogUrlOnlyDoc.ogUrl then 1 else 0)) = 1 ∧
    ((Seo.analyzeMetaTags ogUrlOnlyDoc).map (fun i => i.message)).contains
        "Incomplete Open Graph tags (1/4 found)" = false ∧
    ((Seo.analyzeMetaTags ogUrlOnlyDoc).map (fun i => i.message)).contains
        "No Open Graph tags found" = true := by
  refine ⟨by decide, by decide, by decide⟩

/-- C7 (amended): the technical module counts the four tags og:title,
    og:description, og:image, og:url — 0 → Warning/medium, 1–3 →
    Warning/medium incomplete reporting `n/4`, 4 → Success/low — while the
    single-page SEO module counts only og:title, og:description, og:image
    with the same banding out of 3. -/
theorem C7_open_graph :
    (∀ d : Doc,
      ((if d.ogTitle then 1 else 0) + (if d.ogDescription then 1 else 0)
        + (if d.ogImage then 1 else 0) + (if d.ogUrl then 1 else 0) = 0 →
        (Tech.analyzeOpenGraph d).1.map (fun i => (i.type, i.priority, i.message))
          = [(.warning, .medium, "No Open Graph tags found")]) ∧
      (∀ c : Nat,
        (if d.ogTitle then 1 else 0) + (if d.ogDescription then 1 else 0)
          + (if d.ogImage then 1 else 0) + (if d.ogUrl then 1 else 0) = c →
        0 < c → c < 4 →
        (Tech.analyzeOpenGraph d).1.map (fun i => (i.type, i.priority, i.message))
          = [(.warning, .medium, s!"Incomplete Open Graph tags ({c}/4 found)")]) ∧
      ((if d.ogTitle then 1 else 0) + (if d.ogDescription then 1 else 0)
        + (if d.ogImage then 1 else 0) + (if d.ogUrl then 1 else 0) = 4 →
        (Tech.analyzeOpenGraph d).1.map (fun i => (i.type, i.priority, i.message))
          = [(.success, .low, "Complete Open Graph tags found")])) ∧
    (∀ d : Doc,
      ((if d.ogTitle then 1 else 0) + (if d.ogDescription then 1 else 0)
        + (if d.ogImage then 1 else 0) = 0 →
        ∃ i ∈ Seo.analyzeMetaTags d,
          (i.type, i.priority, i.message)
            = (.warning, .medium, "No Open Graph tags found")) ∧
      (∀ c : Nat,
        (if d.ogTitle then 1 else 0) + (if d.ogDescription then 1 else 0)
          + (if d.ogImage then 1 else 0) = c →
        0 < c → c < 3 →
        ∃ i ∈ Seo.analyzeMetaTags d,
          (i.type, i.priority, i.message)
            = (.warning, .medium, s!"Incomplete Open Graph tags ({c}/3 found)")) ∧
      ((if d.ogTitle then 1 else 0) + (if d.ogDescription then 1 else 0)
        + (if d.ogImage then 1 else 0) = 3 →
        ∃ i ∈ Seo.analyzeMetaTags d,
          (i.type, i.priority, i.message)
            = (.success, .low, "Complete Open Graph tags found"))) := by
  constructor
  · intro d
    refine ⟨?_, ?_, ?_⟩
    · intro h
      cases hT : d.ogTitle <;> cases hD : d.ogDescription <;>
        cases hI : d.ogImage <;> cases hU : d.ogUrl <;>
        rw [hT, hD, hI, hU] at h <;> simp at h <;>
        simp [Tech.analyzeOpenGraph, hT, hD, hI, hU]
    · intro c hc h1 h2
      cases hT : d.ogTitle <;> cases hD : d.ogDescription <;>
        cases hI : d.ogImage <;> cases hU : d.ogUrl <;>
        rw [hT, hD, hI, hU] at hc <;> simp at hc <;> subst hc <;>
        first
          | omega
          | simp [Tech.analyzeOpenGraph, hT, hD, hI, hU]
    · intro h
      cases hT : d.ogTitle <;> cases hD : d.ogDescription <;>
        cases hI : d.ogImage <;> cases hU : d.ogUrl <;>
        rw [hT, hD, hI, hU] at h <;> simp at h <;>
        simp [Tech.analyzeOpenGraph, hT, hD, hI, hU]
  · intro d
    refine ⟨?_, ?_, ?_⟩
    · intro h
      cases hT : d.ogTitle <;> cases hD : d.ogDescription <;>
        cases hI : d.ogImage <;>
        rw [hT, hD, hI] at h <;> simp at h <;>
        exact ⟨{ type := .warning, category := "meta",
                 message := "No Open Graph tags found", priority := .medium,
                 recommendation := some
                   "Add og:title, og:description, and og:image for better social sharing" },
          by simp [Seo.analyzeMetaTags, hT, hD, hI], rfl⟩
    · intro c hc h1 h2
      cases hT : d.ogTitle <;> cases hD : d.ogDescription <;>
        cases hI : d.ogImage <;>
        rw [hT, hD, hI] at hc <;> simp at hc <;> subst hc <;>
        first
          | omega
          | exact ⟨{ type := .warning, category := "meta",
                     message := s!"Incomplete Open Graph tags ({(1 : Nat)}/3 found)",
                     priority := .medium,
                     recommendation := some
                       "Add missing Open Graph tags for complete social media optimization" },
              by simp [Seo.analyzeMetaTags, hT, hD, hI], rfl⟩
          | exact ⟨{ type := .warning, category := "meta",
                     message := s!"Incomplete Open Graph tags ({(2 : Nat)}/3 found)",
                     priority := .medium,
                     recommendation := some
                       "Add missing Open Graph tags for complete social media optimization" },
              by simp [Seo.analyzeMetaTags, hT, hD, hI], rfl⟩
    · intro h
      cases hT : d.ogTitle <;> cases hD : d.ogDescription <;>
        cases hI : d.ogImage <;>
        rw [hT, hD, hI] at h <;> simp at h <;>
        exact ⟨{ type := .success, category := "meta",
                 message := "Complete Open Graph tags found", priority := .low },
          by simp [Seo.analyzeMetaTags, hT, hD, hI], rfl⟩

/-- C7 witness: the page with only `og:url` — 1/4 incomplete in the
    technical module, zero-tag warning in the single-page module. -/
theorem C7_open_graph_witness :
    (Tech.analyzeOpenGraph ogUrlOnlyDoc).1.map
        (fun i => (i.type, i.priority, i.message))
      = [(.warning, .medium, s!"Incomplete Open Graph tags ({(1 : Nat)}/4 found)")] ∧
    (∃ i ∈ Seo.analyzeMetaTags ogUrlOnlyDoc,
      (i.type, i.priority, i.message)
        = (.warning, .medium, "No Open Graph tags found")) :=
  ⟨(C7_open_graph.1 ogUrlOnlyDoc).2.1 1 (by decide) (by decide) (by decide),
   (C7_open_graph.2 ogUrlOnlyDoc).1 (by decide)⟩

/-- C1 counterexample: with every retrieval attempt failing (seed included),
    `analyzeSite` does NOT return the claimed score-0 single-issue report:
    its sub-analyzers catch the failures themselves, yielding three issues
    (robots Error/high, sitemap Warning/medium, structure Error/high) and
    score 54. -/
theorem C1_counterexample :
    (Site.analyzeSite toyEnv downSiteNet "https://example.com").score = 54 ∧
    ¬ (Site.analyzeSite toyEnv downSiteNet "https://example.com").score = 0 ∧
    (Site.analyzeSite toyEnv downSiteNet "https://example.com").issues.length = 3 ∧
    (Site.analyzeSite toyEnv downSiteNet "https://example.com").issues.map
        (fun i => (i.type, i.priority))
      = [(.error, .high), (.warning, .medium), (.error, .high)] := by
  refine ⟨by decide, by decide, by decide, by decide⟩

/-- C1 (amended): the technical and single-page SEO `analyzePage`,
    `analyzeQuickWins`, and `analyzeContent` always return a Report, and on
    seed retrieval failure it has score 0 with exactly one high-priority
    Error-kind item (the quick-wins analogue carries impact high, rank 10);
    `analyzeSite` also never raises, but a seed retrieval failure degrades
    into per-check issues inside its sub-analyzers — its score-0
    single-issue report arises only when the URL constructor throws on the
    input. -/
theorem C1_error_reports :
    (∀ (E : UrlEnv) (url : String),
      (Seo.analyzePage E none url).score = 0 ∧
      (Seo.analyzePage E none url).issues.map (fun i => (i.type, i.priority))
        = [(.error, .high)]) ∧
    (∀ (E : UrlEnv) (url : String),
      (Tech.analyzePage E none url).score = 0 ∧
      (Tech.analyzePage E none url).issues.map (fun i => (i.type, i.priority))
        = [(.error, .high)]) ∧
    (∀ url : String,
      (QW.analyzeQuickWins none url).overallScore = 0 ∧
      (QW.analyzeQuickWins none url).quickWins.map (fun w => (w.impact, w.priority))
        = [(.high, 10)]) ∧
    (∀ url : String,
      (PSpd.analyzePage none url).score = 0 ∧
      (PSpd.analyzePage none url).issues.map (fun i => (i.type, i.priority))
        = [(.error, .high)]) ∧
    (∀ (E : UrlEnv) (pf : String → Option Blog.PostDoc) (url : String),
      (Blog.analyzeContent E none pf url).score = 0 ∧
      (Blog.analyzeContent E none pf url).issues.map (fun i => (i.type, i.priority))
        = [(.error, .high)]) ∧
    (∀ (E : UrlEnv) (net : Site.SiteNet) (url : String),
      E.parse (normalizeUrl url) = none →
      (Site.analyzeSite E net url).score = 0 ∧
      (Site.analyzeSite E net url).issues.map (fun i => (i.type, i.priority))
        = [(.error, .high)]) := by
  refine ⟨?_, ?_, ?_, ?_, ?_, ?_⟩
  · intro E url
    simp only [Seo.analyzePage]
    split <;> simp [Seo.errorResult]
  · intro E url
    simp only [Tech.analyzePage]
    split <;> simp [Tech.errorResult]
  · intro url
    simp [QW.analyzeQuickWins]
  · intro url
    simp [PSpd.analyzePage, PSpd.errorResult]
  · intro E pf url
    simp [Blog.analyzeContent, Blog.errorResult]
  · intro E net url h
    simp [Site.analyzeSite, h, Site.catchResult]

/-- C1 witness: concrete failing environments for the amended statement. -/
theorem C1_error_reports_witness :
    (Seo.analyzePage toyEnv none "https://example.com").score = 0 ∧
    (QW.analyzeQuickWins none "https://example.com").overallScore = 0 ∧
    (Site.analyzeSite failEnv downSiteNet "not a url").score = 0 :=
  ⟨(C1_error_reports.1 toyEnv "https://example.com").1,
   (C1_error_reports.2.2.1 "https://example.com").1,
   (C1_error_reports.2.2.2.2.2 failEnv downSiteNet "not a url" rfl).1⟩

/-- C9 counterexample: the quick-wins exporter of `quickWinsAnalyzer.ts`
    emits only nine columns (no Time to Implement / Expected Impact), and
    the eleven-column exporter in `pageSpeedAnalyzer.ts` prefixes a
    FOUR-line header block (the blank separator sits at index 4, the header
    row at index 5) — so no exporter matches the claimed combination. -/
theorem C9_counterexample :
    (QW.generateCSVLines sampleQWResult).get? 4
      = some "Priority,Category,Issue,Impact,Effort,Recommendation,Element,Status,Notes" ∧
    ¬ (QW.generateCSVLines sampleQWResult).get? 4
      = some "Priority,Category,Issue,Impact,Effort,Time to Implement,Recommendation,Expected Impact,Element,Status,Notes" ∧
    (QWX.generateCSVLines sampleQWXResult).get? 4 = some "" ∧
    (QWX.generateCSVLines sampleQWXResult).get? 5
      = some "Priority,Category,Issue,Impact,Effort,Time to Implement,Recommendation,Expected Impact,Element,Status,Notes" := by
  refine ⟨by decide, by decide, by decide, by decide⟩

/-- C9 (amended): the basic exporter emits the nine columns below after a
    three-line header block and a blank line; the extended exporter emits
    the claimed eleven columns but after a four-line header block; in both,
    every data row wraps each field in double quotes with embedded quotes
    doubled, and a standard CSV reader parses a rendered row back to the
    original fields. -/
theorem C9_csv :
    QW.csvHeaders = ["Priority", "Category", "Issue", "Impact", "Effort",
      "Recommendation", "Element", "Status", "Notes"] ∧
    QWX.csvHeaders = ["Priority", "Category", "Issue", "Impact", "Effort",
      "Time to Implement", "Recommendation", "Expected Impact", "Element",
      "Status", "Notes"] ∧
    (∀ r : QW.QuickWinsResult,
      (QW.generateCSVLines r).get? 3 = some "" ∧
      (QW.generateCSVLines r).get? 4
        = some (String.intercalate "," QW.csvHeaders) ∧
      (QW.generateCSVLines r).drop 5
        = r.quickWins.map (fun w => csvRow (QW.csvCells w))) ∧
    (∀ r : QWX.QuickWinsResult,
      (QWX.generateCSVLines r).get? 4 = some "" ∧
      (QWX.generateCSVLines r).get? 5
        = some (String.intercalate "," QWX.csvHeaders) ∧
      (QWX.generateCSVLines r).drop 6
        = r.quickWins.map (fun w => csvRow (QWX.csvCells w))) ∧
    (∀ cells : List String, cells ≠ [] →
      csvReadRow (csvRowChars cells) = some cells) := by
  refine ⟨rfl, rfl, ?_, ?_, ?_⟩
  · intro r
    exact ⟨rfl, rfl, rfl⟩
  · intro r
    exact ⟨rfl, rfl, rfl⟩
  · intro cells h
    exact csvReadRowAux_render cells _ h (csvRowChars_length cells)

/-- C9 witness: a field holding a comma and an embedded quote round-trips
    through the reader, on the concrete sample export. -/
theorem C9_csv_witness :
    csvReadRow (csvRowChars ["Add a title, \"quoted\" here", "easy"])
      = some ["Add a title, \"quoted\" here", "easy"] ∧
    (QW.generateCSVLines sampleQWResult).drop 5
      = sampleQWResult.quickWins.map (fun w => csvRow (QW.csvCells w)) :=
  ⟨C9_csv.2.2.2.2 ["Add a title, \"quoted\" here", "easy"] (by decide),
   (C9_csv.2.2.1 sampleQWResult).2.2⟩
